import Mathlib

/-!
Verification of the WakeAssist firmware core (alarm escalation state machine,
hardware abstraction) against its natural-language specification.

The definitions below are a shallow embedding of the C++ sources:
  * `src/firmware/src/alarm_controller.cpp` / `.h` (state machine),
  * `src/firmware/src/hardware.cpp` / `.h` (buzzers, debounce, long-hold),
  * `src/firmware/src/config.h` (timing constants).

Modelling conventions:
  * the monotonic millisecond clock `millis()` is passed explicitly as a
    `Nat` argument `t`; unsigned 32-bit wraparound is not modelled (the
    design document itself accepts the wraparound limit as out of scope);
  * GPIO / PWM side effects are modelled as fields of an explicit hardware
    record (`HW`) holding the two buzzer duty cycles and the pulse-pattern
    bookkeeping of `Hardware::pulseSmallBuzzer`;
  * LED writes and debug prints have no bearing on any claim and are not
    tracked as state; externally visible actions whose ordering matters
    (silencing, statistics computation, Telegram notifications, state
    entries) are recorded in an `Eff` trace returned by each operation;
  * the Telegram sink is represented by a boolean `online` input plus the
    controller's own `telegramNotificationsEnabled` flag, exactly mirroring
    `AlarmController::sendTelegramNotification`;
  * the buzzer-circuit health readings consumed by
    `AlarmController::checkHardwareHealth` come from `Hardware::state`,
    which only the loop-back check mutates; they enter the model as an
    explicit per-call input `HwHealthIn`;
  * the blocking delays of the diagnostic path `testAlarm` are elided (no
    claim depends on time passing inside that call).
-/

namespace WakeAssist

/-- Timing and level constants from `config.h`. -/
def BUTTON_DEBOUNCE_MS : Nat := 50

/-- Hold time for a factory reset, `config.h` line 90. -/
def RESET_HOLD_TIME_MS : Nat := 10000

/-- Delay before the alarm starts, `config.h` line 118. -/
def ALARM_TRIGGERED_DELAY_MS : Nat := 3000

/-- WARNING stage length, `config.h` line 110. -/
def ALARM_WARNING_DURATION_MS : Nat := 30000

/-- ALERT stage length, `config.h` line 111. -/
def ALARM_ALERT_DURATION_MS : Nat := 30000

/-- Safety ceiling on total active time, `config.h` line 114. -/
def ALARM_SAFETY_TIMEOUT_MS : Nat := 300000

/-- Full-power duty cycle, `config.h` line 133. -/
def BUZZER_ON : Nat := 255

/-- Off duty cycle, `config.h` line 132. -/
def BUZZER_OFF : Nat := 0

/-- Pulse pattern on time, `config.h` line 136. -/
def BUZZER_PULSE_ON_MS : Nat := 500

/-- Pulse pattern off time, `config.h` line 137. -/
def BUZZER_PULSE_OFF_MS : Nat := 500

/-- The `AlarmState` enum of `alarm_controller.h` lines 36-45. -/
inductive AlarmState where
  | idle
  | triggered
  | warning
  | alert
  | emergency
  | stoppedUser
  | stoppedTimeout
  | stoppedError
deriving DecidableEq, Repr

/-- The `AlarmStopSource` enum of `alarm_controller.h` lines 52-59. -/
inductive AlarmStopSource where
  | none
  | telegramCommand
  | silenceButton
  | safetyTimeout
  | hardwareError
  | completed
deriving DecidableEq, Repr

/-- The `AlarmStatistics` struct of `alarm_controller.h` lines 66-73. -/
structure AlarmStatistics where
  startTime : Nat
  stopTime : Nat
  duration : Nat
  stopSource : AlarmStopSource
  maxStageReached : AlarmState
  hardwareIssueDetected : Bool
deriving DecidableEq, Repr

/-- The `HardwareStatus` values (`hardware.h`): per-circuit health. -/
inductive HwStatus where
  | unknown
  | ok
  | failed
  | disabled
deriving DecidableEq, Repr

/-- The health readings of `Hardware::state` consumed by
`AlarmController::checkHardwareHealth`; mutated only by the loop-back
circuit check, so modelled as an external input to `update`. -/
structure HwHealthIn where
  smallBuzzer : HwStatus
  largeBuzzer : HwStatus
deriving DecidableEq, Repr

/-- Healthy readings: both circuits OK. -/
def healthyIn : HwHealthIn := { smallBuzzer := HwStatus.ok, largeBuzzer := HwStatus.ok }

/-- Hardware output state owned by the `Hardware` singleton that the
controller drives: the PWM duty cycle of each buzzer (`ledcWrite`),
plus the pulse bookkeeping of `Hardware::pulseSmallBuzzer`
(`hardware.h` lines 219-222). -/
structure HW where
  smallDuty : Nat
  largeDuty : Nat
  lastPulseToggle : Nat
  pulseState : Bool
  pulseStartTime : Nat
deriving DecidableEq, Repr

/-- `Hardware::setSmallBuzzer`, `hardware.cpp` line 195. -/
def setSmallBuzzer (h : HW) (dutyCycle : Nat) : HW :=
  { h with smallDuty := dutyCycle }

/-- `Hardware::setLargeBuzzer`, `hardware.cpp` line 212. -/
def setLargeBuzzer (h : HW) (dutyCycle : Nat) : HW :=
  { h with largeDuty := dutyCycle }

/-- `Hardware::stopAllBuzzers`, `hardware.cpp` line 228. -/
def stopAllBuzzers (h : HW) : HW :=
  setLargeBuzzer (setSmallBuzzer h 0) 0

/-- `Hardware::pulseSmallBuzzer`, `hardware.cpp` lines 242-280.
Returns the new hardware state and the "pattern complete" flag. -/
def pulseSmallBuzzer (h : HW) (t : Nat) : HW × Bool :=
  let h1 :=
    if h.pulseStartTime = 0 then
      setSmallBuzzer
        { h with pulseStartTime := t, lastPulseToggle := t, pulseState := true }
        BUZZER_ON
    else h
  if ALARM_WARNING_DURATION_MS ≤ t - h1.pulseStartTime then
    ({ stopAllBuzzers h1 with pulseStartTime := 0 }, true)
  else if h1.pulseState then
    if BUZZER_PULSE_ON_MS ≤ t - h1.lastPulseToggle then
      ({ setSmallBuzzer h1 BUZZER_OFF with pulseState := false, lastPulseToggle := t }, false)
    else (h1, false)
  else
    if BUZZER_PULSE_OFF_MS ≤ t - h1.lastPulseToggle then
      ({ setSmallBuzzer h1 BUZZER_ON with pulseState := true, lastPulseToggle := t }, false)
    else (h1, false)

/-- Externally visible actions of the controller, in program order.
`enteredState s` marks `transitionToState` landing on `s`;
`notifySent` marks a Telegram message actually handed to the bot. -/
inductive Notice where
  | wakeReceived
  | warningStarted
  | alertStarted
  | emergencyStarted
  | alarmTimeout
  | alarmStopped (duration : Nat) (sourceStr : String)
  | testStart
  | testSmall
  | testLarge
  | testComplete
  | errorBuzzerSmall
  | errorBuzzerLarge
  | errorBothBuzzers
deriving DecidableEq, Repr

/-- Trace events emitted by controller operations. -/
inductive Eff where
  | silencedAll
  | statsComputed
  | notifySent (n : Notice)
  | enteredState (s : AlarmState)
deriving DecidableEq, Repr

/-- The private state of `AlarmController` (`alarm_controller.h` lines
191-203) plus `lastCheck`, the function-local `static` inside
`AlarmController::update` (`alarm_controller.cpp` line 186), and the
hardware output state the controller drives. -/
structure Controller where
  currentState : AlarmState
  previousState : AlarmState
  stageStartTime : Nat
  alarmStartTime : Nat
  telegramNotificationsEnabled : Bool
  hardwareChecksEnabled : Bool
  lastStatistics : AlarmStatistics
  lastHardwareError : String
  testMode : Bool
  lastCheck : Nat
  hw : HW
deriving DecidableEq, Repr

/-- Zeroed statistics, as written by the constructor and by `reset`. -/
def zeroStatistics : AlarmStatistics :=
  { startTime := 0, stopTime := 0, duration := 0,
    stopSource := AlarmStopSource.none,
    maxStageReached := AlarmState.idle, hardwareIssueDetected := false }

/-- The `AlarmController` constructor (`alarm_controller.cpp` lines 30-47)
together with the buzzers-off hardware state established by
`Hardware::begin` / `setupPWM` before the controller runs. -/
def mkController : Controller :=
  { currentState := AlarmState.idle
    previousState := AlarmState.idle
    stageStartTime := 0
    alarmStartTime := 0
    telegramNotificationsEnabled := true
    hardwareChecksEnabled := true
    lastStatistics := zeroStatistics
    lastHardwareError := ""
    testMode := false
    lastCheck := 0
    hw := { smallDuty := 0, largeDuty := 0, lastPulseToggle := 0,
            pulseState := false, pulseStartTime := 0 } }

/-- `AlarmController::isActive` (`alarm_controller.cpp` lines 143-148),
factored through the state tag. -/
def isActiveState (s : AlarmState) : Bool :=
  match s with
  | AlarmState.idle => false
  | AlarmState.stoppedUser => false
  | AlarmState.stoppedTimeout => false
  | AlarmState.stoppedError => false
  | _ => true

/-- `AlarmController::isActive`. -/
def isActive (c : Controller) : Bool :=
  isActiveState c.currentState

/-- `AlarmController::sendTelegramNotification` (`alarm_controller.cpp`
lines 475-486): drops the message unless notifications are enabled and
the bot is online. -/
def sendTelegramNotification (c : Controller) (online : Bool) (m : Notice) : List Eff :=
  if c.telegramNotificationsEnabled = false then []
  else if online = false then []
  else [Eff.notifySent m]

/-- `AlarmController::transitionToState` (`alarm_controller.cpp` lines
362-402): early-outs when already in the target state, otherwise records
the previous state, sets the stage clock and runs the entry actions.
LED writes are not tracked; the entry-action buzzer silencing for `idle`
and the stage-start notifications are. -/
def transitionToState (c : Controller) (newState : AlarmState) (t : Nat) (online : Bool) :
    Controller × List Eff :=
  if newState = c.currentState then (c, [])
  else
    let c1 := { c with previousState := c.currentState,
                       currentState := newState,
                       stageStartTime := t }
    match newState with
    | AlarmState.idle =>
        ({ c1 with hw := stopAllBuzzers c1.hw },
         [Eff.enteredState newState, Eff.silencedAll])
    | AlarmState.triggered => (c1, [Eff.enteredState newState])
    | AlarmState.warning =>
        (c1, Eff.enteredState newState :: sendTelegramNotification c1 online Notice.warningStarted)
    | AlarmState.alert =>
        (c1, Eff.enteredState newState :: sendTelegramNotification c1 online Notice.alertStarted)
    | AlarmState.emergency =>
        (c1, Eff.enteredState newState :: sendTelegramNotification c1 online Notice.emergencyStarted)
    | _ => (c1, [Eff.enteredState newState])

/-- `AlarmController::getStateDuration` (`alarm_controller.cpp` lines
538-556); `UINT32_MAX` for the open-ended emergency stage. -/
def getStateDuration (s : AlarmState) : Nat :=
  match s with
  | AlarmState.triggered => ALARM_TRIGGERED_DELAY_MS
  | AlarmState.warning => ALARM_WARNING_DURATION_MS
  | AlarmState.alert => ALARM_ALERT_DURATION_MS
  | AlarmState.emergency => 4294967295
  | _ => 0

/-- `AlarmController::isStageDurationExceeded` (`alarm_controller.cpp`
lines 404-409). -/
def isStageDurationExceeded (c : Controller) (t : Nat) : Bool :=
  decide (getStateDuration c.currentState ≤ t - c.stageStartTime)

/-- `AlarmController::isSafetyTimeoutReached` (`alarm_controller.cpp`
lines 411-418): `alarmStartTime == 0` doubles as the unset sentinel. -/
def isSafetyTimeoutReached (c : Controller) (t : Nat) : Bool :=
  if c.alarmStartTime = 0 then false
  else decide (ALARM_SAFETY_TIMEOUT_MS ≤ t - c.alarmStartTime)

/-- `AlarmController::calculateStatistics` (`alarm_controller.cpp` lines
558-571). -/
def calculateStatistics (c : Controller) (source : AlarmStopSource) (t : Nat) : Controller :=
  { c with lastStatistics :=
      { startTime := c.alarmStartTime
        stopTime := t
        duration := (t - c.alarmStartTime) / 1000
        stopSource := source
        maxStageReached := c.currentState
        hardwareIssueDetected := decide (source = AlarmStopSource.hardwareError) } }

/-- The `Stopped*` state selected by the `switch (source)` in
`AlarmController::stop` (`alarm_controller.cpp` lines 112-132). -/
def stopStateFor (source : AlarmStopSource) : AlarmState :=
  match source with
  | AlarmStopSource.safetyTimeout => AlarmState.stoppedTimeout
  | AlarmStopSource.hardwareError => AlarmState.stoppedError
  | _ => AlarmState.stoppedUser

/-- The source label used in the user-stop message
(`alarm_controller.cpp` lines 126-127). -/
def stopSourceLabel (source : AlarmStopSource) : String :=
  if source = AlarmStopSource.telegramCommand then "Telegram"
  else if source = AlarmStopSource.silenceButton then "Button"
  else "Unknown"

/-- `AlarmController::stop` (`alarm_controller.cpp` lines 96-141).
On success: silence both buzzers first, compute statistics, pick the
stopped state and its notification, transition through it and then to
idle, all within the call. The effect list is in program order. -/
def stop (c : Controller) (source : AlarmStopSource) (t : Nat) (online : Bool) :
    Controller × Bool × List Eff :=
  if isActive c = false then (c, false, [])
  else
    let c1 := { c with hw := stopAllBuzzers c.hw }
    let c2 := calculateStatistics c1 source t
    let notifyEffs :=
      match source with
      | AlarmStopSource.safetyTimeout =>
          sendTelegramNotification c2 online Notice.alarmTimeout
      | AlarmStopSource.hardwareError => []
      | _ =>
          sendTelegramNotification c2 online
            (Notice.alarmStopped c2.lastStatistics.duration (stopSourceLabel source))
    let r3 := transitionToState c2 (stopStateFor source) t online
    let r4 := transitionToState r3.1 AlarmState.idle t online
    (r4.1, true,
     Eff.silencedAll :: Eff.statsComputed :: (notifyEffs ++ r3.2 ++ r4.2))

/-- `AlarmController::start` (`alarm_controller.cpp` lines 75-94). -/
def start (c : Controller) (t : Nat) (online : Bool) : Controller × Bool × List Eff :=
  if isActive c = true then (c, false, [])
  else
    let c1 := { c with alarmStartTime := t, testMode := false }
    let r2 := transitionToState c1 AlarmState.triggered t online
    (r2.1, true, r2.2 ++ sendTelegramNotification r2.1 online Notice.wakeReceived)

/-- `AlarmController::updateBuzzerOutput` (`alarm_controller.cpp` lines
420-441). -/
def updateBuzzerOutput (c : Controller) (t : Nat) : Controller :=
  match c.currentState with
  | AlarmState.warning => { c with hw := (pulseSmallBuzzer c.hw t).1 }
  | AlarmState.alert => { c with hw := setSmallBuzzer c.hw BUZZER_ON }
  | AlarmState.emergency => { c with hw := setLargeBuzzer c.hw BUZZER_ON }
  | _ => c

/-- The per-state dispatch of `AlarmController::update`
(`alarm_controller.cpp` lines 152-176), inlining the private
`updateIdleState` / `updateTriggeredState` / `updateWarningState` /
`updateAlertState` / `updateEmergencyState` handlers (lines 492-536). -/
def stateDispatch (c : Controller) (t : Nat) (online : Bool) : Controller × List Eff :=
  match c.currentState with
  | AlarmState.idle => (c, [])
  | AlarmState.triggered =>
      if isStageDurationExceeded c t then transitionToState c AlarmState.warning t online
      else (c, [])
  | AlarmState.warning =>
      let c1 := updateBuzzerOutput c t
      if isStageDurationExceeded c1 t then transitionToState c1 AlarmState.alert t online
      else (c1, [])
  | AlarmState.alert =>
      let c1 := updateBuzzerOutput c t
      if isStageDurationExceeded c1 t then transitionToState c1 AlarmState.emergency t online
      else (c1, [])
  | AlarmState.emergency => (updateBuzzerOutput c t, [])
  | _ => (c, [])

/-- `AlarmController::checkHardwareHealth` (`alarm_controller.cpp` lines
443-473): stage-relevant circuit check plus the unconditional both-failed
check. Returns the (possibly error-annotated) controller, the notification
effects and the OK flag. -/
def checkHardwareHealth (c : Controller) (hwIn : HwHealthIn) (online : Bool) :
    Controller × List Eff × Bool :=
  if (c.currentState = AlarmState.warning ∨ c.currentState = AlarmState.alert) ∧
      hwIn.smallBuzzer = HwStatus.failed then
    ({ c with lastHardwareError := "Small buzzer circuit failure" },
     sendTelegramNotification c online Notice.errorBuzzerSmall, false)
  else if c.currentState = AlarmState.emergency ∧ hwIn.largeBuzzer = HwStatus.failed then
    ({ c with lastHardwareError := "Large buzzer circuit failure" },
     sendTelegramNotification c online Notice.errorBuzzerLarge, false)
  else if hwIn.smallBuzzer = HwStatus.failed ∧ hwIn.largeBuzzer = HwStatus.failed then
    ({ c with lastHardwareError := "Both buzzer circuits failed" },
     sendTelegramNotification c online Notice.errorBothBuzzers, false)
  else (c, [], true)

/-- Step 2 of `AlarmController::update` (`alarm_controller.cpp` lines
178-182): force `stop(STOP_SAFETY_TIMEOUT)` when active past the ceiling. -/
def safetyPhase (c : Controller) (t : Nat) (online : Bool) : Controller × List Eff :=
  if isActive c = true ∧ isSafetyTimeoutReached c t = true then
    let r := stop c AlarmStopSource.safetyTimeout t online
    (r.1, r.2.2)
  else (c, [])

/-- Step 3 of `AlarmController::update` (`alarm_controller.cpp` lines
184-194): rate-limited health check, forcing `stop(STOP_HARDWARE_ERROR)`
on failure. `lastCheck` is the function-local `static`. -/
def healthPhase (c : Controller) (t : Nat) (hwIn : HwHealthIn) (online : Bool) :
    Controller × List Eff :=
  if isActive c = true ∧ c.hardwareChecksEnabled = true then
    if 10000 ≤ t - c.lastCheck then
      let ch := checkHardwareHealth { c with lastCheck := t } hwIn online
      if ch.2.2 = true then (ch.1, ch.2.1)
      else
        let r := stop ch.1 AlarmStopSource.hardwareError t online
        (r.1, ch.2.1 ++ r.2.2)
    else (c, [])
  else (c, [])

/-- `AlarmController::update` (`alarm_controller.cpp` lines 150-195):
state dispatch, then the safety-timeout check, then the rate-limited
hardware health check, in that order. -/
def update (c : Controller) (t : Nat) (hwIn : HwHealthIn) (online : Bool) :
    Controller × List Eff :=
  let d := stateDispatch c t online
  let sfy := safetyPhase d.1 t online
  let hp := healthPhase sfy.1 t hwIn online
  (hp.1, d.2 ++ sfy.2 ++ hp.2)

/-- `AlarmController::testAlarm` (`alarm_controller.cpp` lines 298-333):
blocking diagnostic script; refuses while active, otherwise narrates and
briefly drives each buzzer (each `Hardware::testBuzzer` call ends with the
buzzer written back off). The blocking delays are elided. -/
def testAlarm (c : Controller) (online : Bool) : Controller × Bool × List Eff :=
  if isActive c = true then (c, false, [])
  else
    let cT := { c with testMode := true }
    let e1 := sendTelegramNotification cT online Notice.testStart
    let e2 := sendTelegramNotification cT online Notice.testSmall
    let c1 := { cT with hw := setSmallBuzzer (setSmallBuzzer cT.hw BUZZER_ON) BUZZER_OFF }
    let e3 := sendTelegramNotification c1 online Notice.testLarge
    let c2 := { c1 with hw := setLargeBuzzer (setLargeBuzzer c1.hw BUZZER_ON) BUZZER_OFF }
    let e4 := sendTelegramNotification c2 online Notice.testComplete
    ({ c2 with testMode := false }, true, e1 ++ e2 ++ e3 ++ e4)

/-- `AlarmController::getDuration` (`alarm_controller.cpp` lines 266-272). -/
def getDuration (c : Controller) (t : Nat) : Nat :=
  if c.alarmStartTime = 0 then 0
  else (t - c.alarmStartTime) / 1000

/-- `AlarmController::reset` (`alarm_controller.cpp` lines 339-356).
The `static` `lastCheck` inside `update` is untouched by `reset`. -/
def reset (c : Controller) : Controller :=
  { c with hw := stopAllBuzzers c.hw
           currentState := AlarmState.idle
           previousState := AlarmState.idle
           stageStartTime := 0
           alarmStartTime := 0
           lastHardwareError := ""
           lastStatistics := zeroStatistics }

/-- The button debounce record of `Hardware` (`hardware.h` lines 209-213). -/
structure ButtonState where
  lastReading : Bool
  stableState : Bool
  lastChange : Nat
deriving DecidableEq, Repr

/-- `Hardware::debounceButton` (`hardware.cpp` lines 420-444): reset the
settle timer on any raw change; accept the raw value into the stable state
only once it has been unchanged strictly longer than the settle window. -/
def debounceButton (t : Nat) (rawState : Bool) (b : ButtonState) : ButtonState :=
  let b1 :=
    if rawState ≠ b.lastReading then { b with lastChange := t, lastReading := rawState }
    else b
  if BUTTON_DEBOUNCE_MS < t - b1.lastChange then
    if rawState ≠ b1.stableState then { b1 with stableState := rawState } else b1
  else b1

/-- Fold `debounceButton` over a poll sequence of (time, raw reading). -/
def debounceRun (b : ButtonState) (polls : List (Nat × Bool)) : ButtonState :=
  polls.foldl (fun s p => debounceButton p.1 p.2 s) b

/-- The stable state observed after each poll of a sequence. -/
def debounceOutputs (b : ButtonState) (polls : List (Nat × Bool)) : List Bool :=
  match polls with
  | [] => []
  | p :: ps =>
      let b1 := debounceButton p.1 p.2 b
      b1.stableState :: debounceOutputs b1 ps

/-- Number of changes in a sequence of stable states, starting from a
given initial stable value. -/
def changeCount : Bool → List Bool → Nat
  | _, [] => 0
  | prev, x :: xs => (if x ≠ prev then 1 else 0) + changeCount x xs

/-- Chatter bound: every poll whose raw value repeats the previous reading
arrives within the settle window of the last raw change. Any raw sequence
that alternates faster than the settle window satisfies this. -/
def chatterBounded (lastChange : Nat) (lastReading : Bool) : List (Nat × Bool) → Bool
  | [] => true
  | (t, r) :: ps =>
      if r ≠ lastReading then chatterBounded t r ps
      else decide (t - lastChange ≤ BUTTON_DEBOUNCE_MS) && chatterBounded lastChange lastReading ps

/-- The RESET-button hold bookkeeping in `Hardware::updateButtons`
(`hardware.cpp` lines 397-407): given the debounced stable state of the
reset button at a tick, produce the new `resetButtonPressTime`
(0 is the unset sentinel). -/
def updateResetHold (stablePressed : Bool) (t : Nat) (pressTime : Nat) : Nat :=
  if stablePressed = true then (if pressTime = 0 then t else pressTime) else 0

/-- Fold `updateResetHold` over a tick sequence of (time, stable state). -/
def holdRun (p0 : Nat) (ticks : List (Nat × Bool)) : Nat :=
  ticks.foldl (fun p x => updateResetHold x.2 x.1 p) p0

/-- `Hardware::isFactoryResetRequested` (`hardware.cpp` lines 467-480). -/
def isFactoryResetRequested (t : Nat) (pressTime : Nat) : Bool :=
  if pressTime = 0 then false
  else decide (RESET_HOLD_TIME_MS ≤ t - pressTime)

/-- Run the controller with one `update` tick on every millisecond
boundary after `t0`: `runTicks c t0 hwIn online n` is the state after the
ticks at times `t0 + 1, …, t0 + n`. -/
def runTicks (c : Controller) (t0 : Nat) (hwIn : HwHealthIn) (online : Bool) : Nat → Controller
  | 0 => c
  | n + 1 => (update (runTicks c t0 hwIn online n) (t0 + (n + 1)) hwIn online).1

/-- Controller states reachable from construction by any sequence of
`start`, `stop` and `update` calls, at arbitrary times and with arbitrary
Telegram availability and circuit health readings. -/
inductive Reachable : Controller → Prop where
  | init : Reachable mkController
  | startStep (c : Controller) (t : Nat) (online : Bool) :
      Reachable c → Reachable (start c t online).1
  | stopStep (c : Controller) (src : AlarmStopSource) (t : Nat) (online : Bool) :
      Reachable c → Reachable (stop c src t online).1
  | updateStep (c : Controller) (t : Nat) (hwIn : HwHealthIn) (online : Bool) :
      Reachable c → Reachable (update c t hwIn online).1

/-- Stage order of the escalation sequence (proof device for
monotonicity statements). -/
def stageRank (s : AlarmState) : Nat :=
  match s with
  | AlarmState.triggered => 1
  | AlarmState.warning => 2
  | AlarmState.alert => 3
  | AlarmState.emergency => 4
  | _ => 0

/-- Ghost abstraction of the controller fields that drive state
transitions under healthy hardware: current state, stage clock, alarm
clock and last statistics. -/
structure Core where
  st : AlarmState
  stage : Nat
  astart : Nat
  stats : AlarmStatistics
deriving DecidableEq, Repr

/-- Projection of a controller onto its transition-driving fields. -/
def coreOf (c : Controller) : Core :=
  { st := c.currentState, stage := c.stageStartTime,
    astart := c.alarmStartTime, stats := c.lastStatistics }

/-- The stage-dispatch part of one tick, on the ghost state. -/
def coreDispatch (k : Core) (t : Nat) : Core :=
  match k.st with
  | AlarmState.triggered =>
      if ALARM_TRIGGERED_DELAY_MS ≤ t - k.stage then
        { k with st := AlarmState.warning, stage := t }
      else k
  | AlarmState.warning =>
      if ALARM_WARNING_DURATION_MS ≤ t - k.stage then
        { k with st := AlarmState.alert, stage := t }
      else k
  | AlarmState.alert =>
      if ALARM_ALERT_DURATION_MS ≤ t - k.stage then
        { k with st := AlarmState.emergency, stage := t }
      else k
  | _ => k

/-- The safety-timeout part of one tick, on the ghost state. -/
def coreSafety (k : Core) (t : Nat) : Core :=
  if isActiveState k.st = true ∧ (k.astart ≠ 0 ∧ ALARM_SAFETY_TIMEOUT_MS ≤ t - k.astart) then
    { st := AlarmState.idle, stage := t, astart := k.astart,
      stats := { startTime := k.astart, stopTime := t,
                 duration := (t - k.astart) / 1000,
                 stopSource := AlarmStopSource.safetyTimeout,
                 maxStageReached := k.st, hardwareIssueDetected := false } }
  else k

/-- One `update` tick under healthy hardware, on the ghost state:
stage dispatch then the safety-timeout stop. -/
def coreStep (k : Core) (t : Nat) : Core :=
  coreSafety (coreDispatch k t) t

/-- Iterate `coreStep` with ticks at `t0 + 1, …, t0 + n`. -/
def coreRun (k : Core) (t0 : Nat) : Nat → Core
  | 0 => k
  | n + 1 => coreStep (coreRun k t0 n) (t0 + (n + 1))

/-- Expected state `n` milliseconds after a (positive-time) start. -/
def phase (n : Nat) : AlarmState :=
  if n < 3000 then AlarmState.triggered
  else if n < 33000 then AlarmState.warning
  else if n < 63000 then AlarmState.alert
  else if n < 300000 then AlarmState.emergency
  else AlarmState.idle

/-- Expected stage clock `n` milliseconds after a start at `T`. -/
def phaseStart (T n : Nat) : Nat :=
  if n < 3000 then T
  else if n < 33000 then T + 3000
  else if n < 63000 then T + 33000
  else if n < 300000 then T + 63000
  else T + 300000

/-- Statistics recorded by the safety-timeout stop of a run started at
`T`. -/
def timeoutStats (T : Nat) : AlarmStatistics :=
  { startTime := T, stopTime := T + 300000, duration := 300,
    stopSource := AlarmStopSource.safetyTimeout,
    maxStageReached := AlarmState.emergency, hardwareIssueDetected := false }

/-- Expected state `n` milliseconds after a start at clock value 0:
the safety timeout is disabled by the unset sentinel, so the machine
parks in `emergency` forever. -/
def phase0 (n : Nat) : AlarmState :=
  if n < 3000 then AlarmState.triggered
  else if n < 33000 then AlarmState.warning
  else if n < 63000 then AlarmState.alert
  else AlarmState.emergency

/-- Expected stage clock `n` milliseconds after a start at clock value 0. -/
def phaseStart0 (n : Nat) : Nat :=
  if n < 3000 then 0
  else if n < 33000 then 3000
  else if n < 63000 then 33000
  else 63000

theorem isActiveState_true_iff (s : AlarmState) :
    isActiveState s = true ↔
      (s = AlarmState.triggered ∨ s = AlarmState.warning ∨
       s = AlarmState.alert ∨ s = AlarmState.emergency) := by
  cases s <;> simp [isActiveState]

theorem isActiveState_false_iff (s : AlarmState) :
    isActiveState s = false ↔
      (s = AlarmState.idle ∨ s = AlarmState.stoppedUser ∨
       s = AlarmState.stoppedTimeout ∨ s = AlarmState.stoppedError) := by
  cases s <;> simp [isActiveState]

theorem stopStateFor_ne_of_active (src : AlarmStopSource) (s : AlarmState)
    (h : isActiveState s = true) : stopStateFor src ≠ s := by
  cases src <;> cases s <;> simp_all [stopStateFor, isActiveState]

@[simp] theorem tts_alarmStartTime (c : Controller) (s : AlarmState) (t : Nat) (online : Bool) :
    (transitionToState c s t online).1.alarmStartTime = c.alarmStartTime := by
  unfold transitionToState
  split
  · rfl
  · cases s <;> simp

@[simp] theorem tts_notifEnabled (c : Controller) (s : AlarmState) (t : Nat) (online : Bool) :
    (transitionToState c s t online).1.telegramNotificationsEnabled =
      c.telegramNotificationsEnabled := by
  unfold transitionToState
  split
  · rfl
  · cases s <;> simp

@[simp] theorem tts_checksEnabled (c : Controller) (s : AlarmState) (t : Nat) (online : Bool) :
    (transitionToState c s t online).1.hardwareChecksEnabled = c.hardwareChecksEnabled := by
  unfold transitionToState
  split
  · rfl
  · cases s <;> simp

@[simp] theorem tts_lastCheck (c : Controller) (s : AlarmState) (t : Nat) (online : Bool) :
    (transitionToState c s t online).1.lastCheck = c.lastCheck := by
  unfold transitionToState
  split
  · rfl
  · cases s <;> simp

@[simp] theorem tts_lastStatistics (c : Controller) (s : AlarmState) (t : Nat) (online : Bool) :
    (transitionToState c s t online).1.lastStatistics = c.lastStatistics := by
  unfold transitionToState
  split
  · rfl
  · cases s <;> simp

theorem tts_state (c : Controller) (s : AlarmState) (t : Nat) (online : Bool)
    (h : s ≠ c.currentState) :
    (transitionToState c s t online).1.currentState = s ∧
    (transitionToState c s t online).1.stageStartTime = t := by
  unfold transitionToState
  rw [if_neg h]
  cases s <;> simp

@[simp] theorem updateBuzzerOutput_currentState (c : Controller) (t : Nat) :
    (updateBuzzerOutput c t).currentState = c.currentState := by
  cases h : c.currentState <;> simp [updateBuzzerOutput, h]

@[simp] theorem updateBuzzerOutput_stageStartTime (c : Controller) (t : Nat) :
    (updateBuzzerOutput c t).stageStartTime = c.stageStartTime := by
  cases h : c.currentState <;> simp [updateBuzzerOutput, h]

@[simp] theorem updateBuzzerOutput_alarmStartTime (c : Controller) (t : Nat) :
    (updateBuzzerOutput c t).alarmStartTime = c.alarmStartTime := by
  cases h : c.currentState <;> simp [updateBuzzerOutput, h]

@[simp] theorem updateBuzzerOutput_notifEnabled (c : Controller) (t : Nat) :
    (updateBuzzerOutput c t).telegramNotificationsEnabled =
      c.telegramNotificationsEnabled := by
  cases h : c.currentState <;> simp [updateBuzzerOutput, h]

@[simp] theorem updateBuzzerOutput_checksEnabled (c : Controller) (t : Nat) :
    (updateBuzzerOutput c t).hardwareChecksEnabled = c.hardwareChecksEnabled := by
  cases h : c.currentState <;> simp [updateBuzzerOutput, h]

@[simp] theorem updateBuzzerOutput_lastCheck (c : Controller) (t : Nat) :
    (updateBuzzerOutput c t).lastCheck = c.lastCheck := by
  cases h : c.currentState <;> simp [updateBuzzerOutput, h]

@[simp] theorem updateBuzzerOutput_lastStatistics (c : Controller) (t : Nat) :
    (updateBuzzerOutput c t).lastStatistics = c.lastStatistics := by
  cases h : c.currentState <;> simp [updateBuzzerOutput, h]

theorem stop_inactive (c : Controller) (src : AlarmStopSource) (t : Nat) (online : Bool)
    (h : isActive c = false) : stop c src t online = (c, false, []) := by
  simp [stop, h]

theorem start_active (c : Controller) (t : Nat) (online : Bool)
    (h : isActive c = true) : start c t online = (c, false, []) := by
  simp [start, h]

theorem testAlarm_active (c : Controller) (online : Bool)
    (h : isActive c = true) : testAlarm c online = (c, false, []) := by
  simp [testAlarm, h]

theorem stop_active_fields (c : Controller) (src : AlarmStopSource) (t : Nat) (online : Bool)
    (h : isActive c = true) :
    (stop c src t online).2.1 = true ∧
    (stop c src t online).1.currentState = AlarmState.idle ∧
    (stop c src t online).1.hw.smallDuty = 0 ∧
    (stop c src t online).1.hw.largeDuty = 0 ∧
    (stop c src t online).1.lastStatistics =
      { startTime := c.alarmStartTime, stopTime := t,
        duration := (t - c.alarmStartTime) / 1000, stopSource := src,
        maxStageReached := c.currentState,
        hardwareIssueDetected := decide (src = AlarmStopSource.hardwareError) } ∧
    (stop c src t online).1.alarmStartTime = c.alarmStartTime ∧
    (stop c src t online).1.telegramNotificationsEnabled = c.telegramNotificationsEnabled ∧
    (stop c src t online).1.hardwareChecksEnabled = c.hardwareChecksEnabled ∧
    (stop c src t online).1.lastCheck = c.lastCheck ∧
    (stop c src t online).1.stageStartTime = t := by
  unfold isActive at h
  rcases (isActiveState_true_iff _).mp h with hc | hc | hc | hc <;>
    cases src <;>
      simp [stop, isActive, hc, isActiveState, calculateStatistics, transitionToState,
            stopStateFor, stopAllBuzzers, setSmallBuzzer, setLargeBuzzer]

theorem stop_active_trace (c : Controller) (src : AlarmStopSource) (t : Nat) (online : Bool)
    (h : isActive c = true) :
    ∃ rest, (stop c src t online).2.2 = Eff.silencedAll :: Eff.statsComputed :: rest := by
  simp only [stop, h]
  simp

theorem stop_active_mem (c : Controller) (src : AlarmStopSource) (t : Nat) (online : Bool)
    (h : isActive c = true) :
    Eff.enteredState (stopStateFor src) ∈ (stop c src t online).2.2 ∧
    Eff.enteredState AlarmState.idle ∈ (stop c src t online).2.2 := by
  unfold isActive at h
  rcases (isActiveState_true_iff _).mp h with hc | hc | hc | hc <;>
    cases src <;>
      simp [stop, isActive, hc, isActiveState, calculateStatistics, transitionToState,
            stopStateFor]

theorem stop_user_notice (c : Controller) (src : AlarmStopSource) (t : Nat) (online : Bool)
    (h : isActive c = true)
    (h1 : src ≠ AlarmStopSource.safetyTimeout) (h2 : src ≠ AlarmStopSource.hardwareError)
    (hEn : c.telegramNotificationsEnabled = true) (hOn : online = true) :
    Eff.notifySent
        (Notice.alarmStopped ((t - c.alarmStartTime) / 1000) (stopSourceLabel src)) ∈
      (stop c src t online).2.2 := by
  unfold isActive at h
  rcases (isActiveState_true_iff _).mp h with hc | hc | hc | hc <;>
    cases src <;> first
      | exact absurd rfl h1
      | exact absurd rfl h2
      | simp [stop, isActive, hc, isActiveState, calculateStatistics, transitionToState,
              stopStateFor, sendTelegramNotification, hEn, hOn]

theorem start_inactive_fields (c : Controller) (t : Nat) (online : Bool)
    (h : isActive c = false) :
    (start c t online).2.1 = true ∧
    (start c t online).1.currentState = AlarmState.triggered ∧
    (start c t online).1.stageStartTime = t ∧
    (start c t online).1.alarmStartTime = t ∧
    (start c t online).1.lastStatistics = c.lastStatistics ∧
    (start c t online).1.telegramNotificationsEnabled = c.telegramNotificationsEnabled ∧
    (start c t online).1.hardwareChecksEnabled = c.hardwareChecksEnabled ∧
    (start c t online).1.lastCheck = c.lastCheck := by
  unfold isActive at h
  rcases (isActiveState_false_iff _).mp h with hc | hc | hc | hc <;>
    simp [start, isActive, hc, isActiveState, transitionToState]

theorem update_inactive (c : Controller) (t : Nat) (hwIn : HwHealthIn) (online : Bool)
    (h : isActive c = false) : update c t hwIn online = (c, []) := by
  have hc := (isActiveState_false_iff _).mp h
  rcases hc with hc | hc | hc | hc <;>
    simp [update, stateDispatch, safetyPhase, healthPhase, isActive, isActiveState, hc, h]

@[simp] theorem stateDispatch_alarmStartTime (c : Controller) (t : Nat) (online : Bool) :
    (stateDispatch c t online).1.alarmStartTime = c.alarmStartTime := by
  cases hc : c.currentState <;> simp only [stateDispatch, hc] <;> (try split) <;> simp

@[simp] theorem stateDispatch_notifEnabled (c : Controller) (t : Nat) (online : Bool) :
    (stateDispatch c t online).1.telegramNotificationsEnabled =
      c.telegramNotificationsEnabled := by
  cases hc : c.currentState <;> simp only [stateDispatch, hc] <;> (try split) <;> simp

@[simp] theorem stateDispatch_checksEnabled (c : Controller) (t : Nat) (online : Bool) :
    (stateDispatch c t online).1.hardwareChecksEnabled = c.hardwareChecksEnabled := by
  cases hc : c.currentState <;> simp only [stateDispatch, hc] <;> (try split) <;> simp

@[simp] theorem stateDispatch_lastCheck (c : Controller) (t : Nat) (online : Bool) :
    (stateDispatch c t online).1.lastCheck = c.lastCheck := by
  cases hc : c.currentState <;> simp only [stateDispatch, hc] <;> (try split) <;> simp

@[simp] theorem stateDispatch_lastStatistics (c : Controller) (t : Nat) (online : Bool) :
    (stateDispatch c t online).1.lastStatistics = c.lastStatistics := by
  cases hc : c.currentState <;> simp only [stateDispatch, hc] <;> (try split) <;> simp

theorem stateDispatch_state (c : Controller) (t : Nat) (online : Bool) :
    (stateDispatch c t online).1.currentState = c.currentState ∨
    (c.currentState = AlarmState.triggered ∧
      (stateDispatch c t online).1.currentState = AlarmState.warning) ∨
    (c.currentState = AlarmState.warning ∧
      (stateDispatch c t online).1.currentState = AlarmState.alert) ∨
    (c.currentState = AlarmState.alert ∧
      (stateDispatch c t online).1.currentState = AlarmState.emergency) := by
  cases hc : c.currentState <;>
    simp only [stateDispatch, hc] <;> (try split) <;>
      simp [transitionToState, hc, updateBuzzerOutput]

theorem stateDispatch_active (c : Controller) (t : Nat) (online : Bool)
    (h : isActive c = true) : isActive (stateDispatch c t online).1 = true := by
  rcases stateDispatch_state c t online with hs | hs | hs | hs
  · unfold isActive at h ⊢
    rw [hs]
    exact h
  all_goals unfold isActive
  all_goals rw [hs.2]
  all_goals rfl

@[simp] theorem chh_currentState (c : Controller) (hwIn : HwHealthIn) (online : Bool) :
    (checkHardwareHealth c hwIn online).1.currentState = c.currentState := by
  unfold checkHardwareHealth
  split_ifs <;> simp

@[simp] theorem chh_hw (c : Controller) (hwIn : HwHealthIn) (online : Bool) :
    (checkHardwareHealth c hwIn online).1.hw = c.hw := by
  unfold checkHardwareHealth
  split_ifs <;> simp

@[simp] theorem chh_alarmStartTime (c : Controller) (hwIn : HwHealthIn) (online : Bool) :
    (checkHardwareHealth c hwIn online).1.alarmStartTime = c.alarmStartTime := by
  unfold checkHardwareHealth
  split_ifs <;> simp

@[simp] theorem chh_notifEnabled (c : Controller) (hwIn : HwHealthIn) (online : Bool) :
    (checkHardwareHealth c hwIn online).1.telegramNotificationsEnabled =
      c.telegramNotificationsEnabled := by
  unfold checkHardwareHealth
  split_ifs <;> simp

@[simp] theorem chh_checksEnabled (c : Controller) (hwIn : HwHealthIn) (online : Bool) :
    (checkHardwareHealth c hwIn online).1.hardwareChecksEnabled =
      c.hardwareChecksEnabled := by
  unfold checkHardwareHealth
  split_ifs <;> simp

@[simp] theorem chh_lastCheck (c : Controller) (hwIn : HwHealthIn) (online : Bool) :
    (checkHardwareHealth c hwIn online).1.lastCheck = c.lastCheck := by
  unfold checkHardwareHealth
  split_ifs <;> simp

@[simp] theorem chh_lastStatistics (c : Controller) (hwIn : HwHealthIn) (online : Bool) :
    (checkHardwareHealth c hwIn online).1.lastStatistics = c.lastStatistics := by
  unfold checkHardwareHealth
  split_ifs <;> simp

@[simp] theorem chh_stageStartTime (c : Controller) (hwIn : HwHealthIn) (online : Bool) :
    (checkHardwareHealth c hwIn online).1.stageStartTime = c.stageStartTime := by
  unfold checkHardwareHealth
  split_ifs <;> simp

theorem chh_healthy (c : Controller) (online : Bool) :
    checkHardwareHealth c healthyIn online = (c, [], true) := by
  simp [checkHardwareHealth, healthyIn]

theorem safetyPhase_good (c : Controller) (t : Nat) (online : Bool) :
    (safetyPhase c t online).1 = c ∨
    ((safetyPhase c t online).1.currentState = AlarmState.idle ∧
     (safetyPhase c t online).1.hw.smallDuty = 0 ∧
     (safetyPhase c t online).1.hw.largeDuty = 0) := by
  unfold safetyPhase
  split_ifs with hcond
  · right
    have hf := stop_active_fields c AlarmStopSource.safetyTimeout t online hcond.1
    exact ⟨hf.2.1, hf.2.2.1, hf.2.2.2.1⟩
  · left
    rfl

theorem healthPhase_good (c : Controller) (t : Nat) (hwIn : HwHealthIn) (online : Bool) :
    ((healthPhase c t hwIn online).1.currentState = c.currentState ∧
     (healthPhase c t hwIn online).1.hw = c.hw) ∨
    ((healthPhase c t hwIn online).1.currentState = AlarmState.idle ∧
     (healthPhase c t hwIn online).1.hw.smallDuty = 0 ∧
     (healthPhase c t hwIn online).1.hw.largeDuty = 0) := by
  simp only [healthPhase]
  split_ifs with hcond hdue hok
  · left
    constructor <;> simp
  · right
    have hact : isActive (checkHardwareHealth { c with lastCheck := t } hwIn online).1 = true := by
      unfold isActive
      rw [chh_currentState]
      exact hcond.1
    have hf := stop_active_fields _ AlarmStopSource.hardwareError t online hact
    refine ⟨?_, ?_, ?_⟩
    · simpa using hf.2.1
    · simpa using hf.2.2.1
    · simpa using hf.2.2.2.1
  · left
    exact ⟨rfl, rfl⟩
  · left
    exact ⟨rfl, rfl⟩

/-- Invariant of all reachable controller states: the machine only parks
in `idle` between calls, and an idle machine has both buzzers silenced. -/
def GoodState (c : Controller) : Prop :=
  (isActive c = false → c.currentState = AlarmState.idle) ∧
  (c.currentState = AlarmState.idle → c.hw.smallDuty = 0 ∧ c.hw.largeDuty = 0)

theorem reachable_good (c : Controller) (h : Reachable c) : GoodState c := by
  induction h with
  | init => exact ⟨fun _ => rfl, fun _ => ⟨rfl, rfl⟩⟩
  | startStep c t online _ ih =>
    by_cases hA : isActive c = true
    · rw [start_active c t online hA]
      exact ih
    · have hIn : isActive c = false := by simpa using hA
      have hf := start_inactive_fields c t online hIn
      constructor
      · intro hF
        exfalso
        unfold isActive at hF
        rw [hf.2.1] at hF
        exact absurd hF (by simp [isActiveState])
      · intro hIdle
        rw [hf.2.1] at hIdle
        exact absurd hIdle (by simp)
  | stopStep c src t online _ ih =>
    by_cases hA : isActive c = true
    · have hf := stop_active_fields c src t online hA
      exact ⟨fun _ => hf.2.1, fun _ => ⟨hf.2.2.1, hf.2.2.2.1⟩⟩
    · have hIn : isActive c = false := by simpa using hA
      rw [stop_inactive c src t online hIn]
      exact ih
  | updateStep c t hwIn online _ ih =>
    by_cases hA : isActive c = true
    · have hd := stateDispatch_active c t online hA
      simp only [update]
      rcases safetyPhase_good (stateDispatch c t online).1 t online with hs | hs
      · rcases healthPhase_good (safetyPhase (stateDispatch c t online).1 t online).1
            t hwIn online with hh | hh
        · constructor
          · intro hF
            exfalso
            unfold isActive at hF
            rw [hh.1, hs] at hF
            unfold isActive at hd
            rw [hd] at hF
            exact absurd hF (by simp)
          · intro hIdle
            exfalso
            rw [hh.1, hs] at hIdle
            unfold isActive at hd
            rw [hIdle] at hd
            exact absurd hd (by simp [isActiveState])
        · exact ⟨fun _ => hh.1, fun _ => ⟨hh.2.1, hh.2.2⟩⟩
      · rcases healthPhase_good (safetyPhase (stateDispatch c t online).1 t online).1
            t hwIn online with hh | hh
        · refine ⟨fun _ => ?_, fun _ => ?_⟩
          · rw [hh.1]
            exact hs.1
          · rw [hh.2]
            exact ⟨hs.2.1, hs.2.2⟩
        · exact ⟨fun _ => hh.1, fun _ => ⟨hh.2.1, hh.2.2⟩⟩
    · have hIn : isActive c = false := by simpa using hA
      rw [update_inactive c t hwIn online hIn]
      exact ih

theorem isSafetyTimeoutReached_iff (c : Controller) (t : Nat) :
    isSafetyTimeoutReached c t = true ↔
      (c.alarmStartTime ≠ 0 ∧ ALARM_SAFETY_TIMEOUT_MS ≤ t - c.alarmStartTime) := by
  unfold isSafetyTimeoutReached
  split_ifs with h <;> simp [h]

theorem coreOf_safetyPhase (c : Controller) (t : Nat) (online : Bool) :
    coreOf (safetyPhase c t online).1 = coreSafety (coreOf c) t := by
  have hiff : (isActive c = true ∧ isSafetyTimeoutReached c t = true) ↔
      (isActiveState (coreOf c).st = true ∧
        ((coreOf c).astart ≠ 0 ∧ ALARM_SAFETY_TIMEOUT_MS ≤ t - (coreOf c).astart)) := by
    unfold isActive coreOf
    simp [isSafetyTimeoutReached_iff]
  unfold safetyPhase coreSafety
  by_cases hA : isActive c = true ∧ isSafetyTimeoutReached c t = true
  · rw [if_pos hA, if_pos (hiff.mp hA)]
    have hf := stop_active_fields c AlarmStopSource.safetyTimeout t online hA.1
    obtain ⟨-, hcs, -, -, hstats, hast, -, -, -, hstage⟩ := hf
    unfold coreOf
    simp [hcs, hstats, hast, hstage]
  · rw [if_neg hA, if_neg (fun hk => hA (hiff.mpr hk))]

theorem coreOf_healthPhase_healthy (c : Controller) (t : Nat) (online : Bool) :
    coreOf (healthPhase c t healthyIn online).1 = coreOf c := by
  simp only [healthPhase, chh_healthy]
  split_ifs <;> simp [coreOf]

theorem coreOf_stateDispatch (c : Controller) (t : Nat) (online : Bool) :
    coreOf (stateDispatch c t online).1 = coreDispatch (coreOf c) t := by
  cases hc : c.currentState <;>
    simp only [stateDispatch, coreDispatch, coreOf, hc] <;>
      (try split_ifs with hd) <;>
        simp_all [transitionToState, isStageDurationExceeded, getStateDuration, hc, coreOf]

theorem coreOf_update_healthy (c : Controller) (t : Nat) (online : Bool) :
    coreOf (update c t healthyIn online).1 = coreStep (coreOf c) t := by
  simp only [update]
  rw [coreOf_healthPhase_healthy, coreOf_safetyPhase, coreOf_stateDispatch]
  rfl

theorem coreOf_runTicks_healthy (c : Controller) (t0 : Nat) (online : Bool) (n : Nat) :
    coreOf (runTicks c t0 healthyIn online n) = coreRun (coreOf c) t0 n := by
  induction n with
  | zero => rfl
  | succ n ih =>
    simp only [runTicks, coreRun]
    rw [coreOf_update_healthy, ih]

theorem phase_eq_triggered {n : Nat} (h : n < 3000) : phase n = AlarmState.triggered := by
  unfold phase
  rw [if_pos h]

theorem phase_eq_warning {n : Nat} (h1 : 3000 ≤ n) (h2 : n < 33000) :
    phase n = AlarmState.warning := by
  unfold phase
  rw [if_neg (by omega), if_pos h2]

theorem phase_eq_alert {n : Nat} (h1 : 33000 ≤ n) (h2 : n < 63000) :
    phase n = AlarmState.alert := by
  unfold phase
  rw [if_neg (by omega), if_neg (by omega), if_pos h2]

theorem phase_eq_emergency {n : Nat} (h1 : 63000 ≤ n) (h2 : n < 300000) :
    phase n = AlarmState.emergency := by
  unfold phase
  rw [if_neg (by omega), if_neg (by omega), if_neg (by omega), if_pos h2]

theorem phase_eq_idle {n : Nat} (h : 300000 ≤ n) : phase n = AlarmState.idle := by
  unfold phase
  rw [if_neg (by omega), if_neg (by omega), if_neg (by omega), if_neg (by omega)]

theorem phaseStart_t {T n : Nat} (h : n < 3000) : phaseStart T n = T := by
  unfold phaseStart
  rw [if_pos h]

theorem phaseStart_w {T n : Nat} (h1 : 3000 ≤ n) (h2 : n < 33000) :
    phaseStart T n = T + 3000 := by
  unfold phaseStart
  rw [if_neg (by omega), if_pos h2]

theorem phaseStart_a {T n : Nat} (h1 : 33000 ≤ n) (h2 : n < 63000) :
    phaseStart T n = T + 33000 := by
  unfold phaseStart
  rw [if_neg (by omega), if_neg (by omega), if_pos h2]

theorem phaseStart_e {T n : Nat} (h1 : 63000 ≤ n) (h2 : n < 300000) :
    phaseStart T n = T + 63000 := by
  unfold phaseStart
  rw [if_neg (by omega), if_neg (by omega), if_neg (by omega), if_pos h2]

theorem phaseStart_i {T n : Nat} (h : 300000 ≤ n) : phaseStart T n = T + 300000 := by
  unfold phaseStart
  rw [if_neg (by omega), if_neg (by omega), if_neg (by omega), if_neg (by omega)]

theorem coreRun_phase (T : Nat) (hT : 0 < T) (st0 : AlarmStatistics) (n : Nat) :
    coreRun { st := AlarmState.triggered, stage := T, astart := T, stats := st0 } T n =
      { st := phase n, stage := phaseStart T n, astart := T,
        stats := if n < 300000 then st0 else timeoutStats T } := by
  induction n with
  | zero =>
    rw [phase_eq_triggered (by omega), phaseStart_t (by omega), if_pos (by omega)]
    rfl
  | succ n ih =>
    rw [coreRun, ih]
    by_cases c1 : n + 1 < 3000
    · rw [phase_eq_triggered (show n < 3000 by omega), phaseStart_t (show n < 3000 by omega),
          phase_eq_triggered c1, phaseStart_t c1,
          if_pos (show n < 300000 by omega), if_pos (show n + 1 < 300000 by omega)]
      simp only [coreStep, coreDispatch, coreSafety, ALARM_TRIGGERED_DELAY_MS,
                 ALARM_SAFETY_TIMEOUT_MS]
      rw [if_neg (show ¬(3000 ≤ T + (n + 1) - T) by omega)]
      rw [if_neg (fun h => absurd h.2.2 (show ¬(300000 ≤ T + (n + 1) - T) by omega))]
    · by_cases c2 : n + 1 < 33000
      · by_cases b1 : n < 3000
        · have e : n + 1 = 3000 := by omega
          rw [e, phase_eq_triggered b1, phaseStart_t b1,
              phase_eq_warning (by omega) (by omega), phaseStart_w (by omega) (by omega),
              if_pos (show n < 300000 by omega), if_pos (show (3000:Nat) < 300000 by omega)]
          simp only [coreStep, coreDispatch, coreSafety, ALARM_TRIGGERED_DELAY_MS,
                     ALARM_SAFETY_TIMEOUT_MS]
          rw [if_pos (show 3000 ≤ T + 3000 - T by omega)]
          rw [if_neg (fun h => absurd h.2.2 (show ¬(300000 ≤ T + 3000 - T) by omega))]
        · rw [phase_eq_warning (by omega) (by omega), phaseStart_w (by omega) (by omega),
              phase_eq_warning (by omega) c2, phaseStart_w (by omega) c2,
              if_pos (show n < 300000 by omega), if_pos (show n + 1 < 300000 by omega)]
          simp only [coreStep, coreDispatch, coreSafety, ALARM_WARNING_DURATION_MS,
                     ALARM_SAFETY_TIMEOUT_MS]
          rw [if_neg (show ¬(30000 ≤ T + (n + 1) - (T + 3000)) by omega)]
          rw [if_neg (fun h => absurd h.2.2 (show ¬(300000 ≤ T + (n + 1) - T) by omega))]
      · by_cases c3 : n + 1 < 63000
        · by_cases b2 : n < 33000
          · have e : n + 1 = 33000 := by omega
            rw [e, phase_eq_warning (by omega) b2, phaseStart_w (by omega) b2,
                phase_eq_alert (by omega) (by omega), phaseStart_a (by omega) (by omega),
                if_pos (show n < 300000 by omega), if_pos (show (33000:Nat) < 300000 by omega)]
            simp only [coreStep, coreDispatch, coreSafety, ALARM_WARNING_DURATION_MS,
                       ALARM_SAFETY_TIMEOUT_MS]
            rw [if_pos (show 30000 ≤ T + 33000 - (T + 3000) by omega)]
            rw [if_neg (fun h => absurd h.2.2 (show ¬(300000 ≤ T + 33000 - T) by omega))]
          · rw [phase_eq_alert (by omega) (by omega), phaseStart_a (by omega) (by omega),
                phase_eq_alert (by omega) c3, phaseStart_a (by omega) c3,
                if_pos (show n < 300000 by omega), if_pos (show n + 1 < 300000 by omega)]
            simp only [coreStep, coreDispatch, coreSafety, ALARM_ALERT_DURATION_MS,
                       ALARM_SAFETY_TIMEOUT_MS]
            rw [if_neg (show ¬(30000 ≤ T + (n + 1) - (T + 33000)) by omega)]
            rw [if_neg (fun h => absurd h.2.2 (show ¬(300000 ≤ T + (n + 1) - T) by omega))]
        · by_cases c4 : n + 1 < 300000
          · by_cases b3 : n < 63000
            · have e : n + 1 = 63000 := by omega
              rw [e, phase_eq_alert (by omega) b3, phaseStart_a (by omega) b3,
                  phase_eq_emergency (by omega) (by omega), phaseStart_e (by omega) (by omega),
                  if_pos (show n < 300000 by omega), if_pos (show (63000:Nat) < 300000 by omega)]
              simp only [coreStep, coreDispatch, coreSafety, ALARM_ALERT_DURATION_MS,
                         ALARM_SAFETY_TIMEOUT_MS]
              rw [if_pos (show 30000 ≤ T + 63000 - (T + 33000) by omega)]
              rw [if_neg (fun h => absurd h.2.2 (show ¬(300000 ≤ T + 63000 - T) by omega))]
            · rw [phase_eq_emergency (by omega) (by omega), phaseStart_e (by omega) (by omega),
                  phase_eq_emergency (by omega) c4, phaseStart_e (by omega) c4,
                  if_pos (show n < 300000 by omega), if_pos (show n + 1 < 300000 by omega)]
              simp only [coreStep, coreDispatch, coreSafety, ALARM_SAFETY_TIMEOUT_MS]
              rw [if_neg (fun h => absurd h.2.2 (show ¬(300000 ≤ T + (n + 1) - T) by omega))]
          · by_cases b4 : n < 300000
            · have e : n + 1 = 300000 := by omega
              rw [e, phase_eq_emergency (by omega) b4, phaseStart_e (by omega) b4,
                  phase_eq_idle (by omega), phaseStart_i (by omega),
                  if_pos (show n < 300000 by omega),
                  if_neg (show ¬((300000:Nat) < 300000) by omega)]
              simp only [coreStep, coreDispatch, coreSafety, ALARM_SAFETY_TIMEOUT_MS]
              rw [if_pos (show (isActiveState AlarmState.emergency = true ∧
                    (T ≠ 0 ∧ 300000 ≤ T + 300000 - T)) from ⟨rfl, by omega, by omega⟩)]
              have e6 : T + 300000 - T = 300000 := by omega
              rw [e6]
              unfold timeoutStats
              norm_num
            · rw [phase_eq_idle (by omega), phaseStart_i (by omega),
                  phase_eq_idle (by omega), phaseStart_i (by omega),
                  if_neg (show ¬(n < 300000) by omega),
                  if_neg (show ¬(n + 1 < 300000) by omega)]
              simp only [coreStep, coreDispatch, coreSafety]
              rw [if_neg (fun h => absurd h.1 (by decide))]

theorem phase0_eq_triggered {n : Nat} (h : n < 3000) : phase0 n = AlarmState.triggered := by
  unfold phase0
  rw [if_pos h]

theorem phase0_eq_warning {n : Nat} (h1 : 3000 ≤ n) (h2 : n < 33000) :
    phase0 n = AlarmState.warning := by
  unfold phase0
  rw [if_neg (by omega), if_pos h2]

theorem phase0_eq_alert {n : Nat} (h1 : 33000 ≤ n) (h2 : n < 63000) :
    phase0 n = AlarmState.alert := by
  unfold phase0
  rw [if_neg (by omega), if_neg (by omega), if_pos h2]

theorem phase0_eq_emergency {n : Nat} (h : 63000 ≤ n) : phase0 n = AlarmState.emergency := by
  unfold phase0
  rw [if_neg (by omega), if_neg (by omega), if_neg (by omega)]

theorem phaseStart0_t {n : Nat} (h : n < 3000) : phaseStart0 n = 0 := by
  unfold phaseStart0
  rw [if_pos h]

theorem phaseStart0_w {n : Nat} (h1 : 3000 ≤ n) (h2 : n < 33000) : phaseStart0 n = 3000 := by
  unfold phaseStart0
  rw [if_neg (by omega), if_pos h2]

theorem phaseStart0_a {n : Nat} (h1 : 33000 ≤ n) (h2 : n < 63000) : phaseStart0 n = 33000 := by
  unfold phaseStart0
  rw [if_neg (by omega), if_neg (by omega), if_pos h2]

theorem phaseStart0_e {n : Nat} (h : 63000 ≤ n) : phaseStart0 n = 63000 := by
  unfold phaseStart0
  rw [if_neg (by omega), if_neg (by omega), if_neg (by omega)]

theorem coreRun_phase0 (st0 : AlarmStatistics) (n : Nat) :
    coreRun { st := AlarmState.triggered, stage := 0, astart := 0, stats := st0 } 0 n =
      { st := phase0 n, stage := phaseStart0 n, astart := 0, stats := st0 } := by
  induction n with
  | zero =>
    rw [phase0_eq_triggered (by omega), phaseStart0_t (by omega)]
    rfl
  | succ n ih =>
    rw [coreRun, ih]
    by_cases c1 : n + 1 < 3000
    · rw [phase0_eq_triggered (show n < 3000 by omega), phaseStart0_t (show n < 3000 by omega),
          phase0_eq_triggered c1, phaseStart0_t c1]
      simp only [coreStep, coreDispatch, coreSafety, ALARM_TRIGGERED_DELAY_MS]
      rw [if_neg (show ¬(3000 ≤ 0 + (n + 1) - 0) by omega)]
      rw [if_neg (fun h => h.2.1 rfl)]
    · by_cases c2 : n + 1 < 33000
      · by_cases b1 : n < 3000
        · have e : n + 1 = 3000 := by omega
          rw [e, phase0_eq_triggered b1, phaseStart0_t b1,
              phase0_eq_warning (by omega) (by omega), phaseStart0_w (by omega) (by omega)]
          simp only [coreStep, coreDispatch, coreSafety, ALARM_TRIGGERED_DELAY_MS]
          rw [if_pos (show 3000 ≤ 0 + 3000 - 0 by omega)]
          rw [if_neg (fun h => h.2.1 rfl)]
        · rw [phase0_eq_warning (by omega) (by omega), phaseStart0_w (by omega) (by omega),
              phase0_eq_warning (by omega) c2, phaseStart0_w (by omega) c2]
          simp only [coreStep, coreDispatch, coreSafety, ALARM_WARNING_DURATION_MS]
          rw [if_neg (show ¬(30000 ≤ 0 + (n + 1) - 3000) by omega)]
          rw [if_neg (fun h => h.2.1 rfl)]
      · by_cases c3 : n + 1 < 63000
        · by_cases b2 : n < 33000
          · have e : n + 1 = 33000 := by omega
            rw [e, phase0_eq_warning (by omega) b2, phaseStart0_w (by omega) b2,
                phase0_eq_alert (by omega) (by omega), phaseStart0_a (by omega) (by omega)]
            simp only [coreStep, coreDispatch, coreSafety, ALARM_WARNING_DURATION_MS]
            rw [if_pos (show 30000 ≤ 0 + 33000 - 3000 by omega)]
            rw [if_neg (fun h => h.2.1 rfl)]
          · rw [phase0_eq_alert (by omega) (by omega), phaseStart0_a (by omega) (by omega),
                phase0_eq_alert (by omega) c3, phaseStart0_a (by omega) c3]
            simp only [coreStep, coreDispatch, coreSafety, ALARM_ALERT_DURATION_MS]
            rw [if_neg (show ¬(30000 ≤ 0 + (n + 1) - 33000) by omega)]
            rw [if_neg (fun h => h.2.1 rfl)]
        · by_cases b3 : n < 63000
          · have e : n + 1 = 63000 := by omega
            rw [e, phase0_eq_alert (by omega) b3, phaseStart0_a (by omega) b3,
                phase0_eq_emergency (by omega), phaseStart0_e (by omega)]
            simp only [coreStep, coreDispatch, coreSafety, ALARM_ALERT_DURATION_MS]
            rw [if_pos (show 30000 ≤ 0 + 63000 - 33000 by omega)]
            rw [if_neg (fun h => h.2.1 rfl)]
          · rw [phase0_eq_emergency (by omega), phaseStart0_e (by omega),
                phase0_eq_emergency (by omega), phaseStart0_e (by omega)]
            simp only [coreStep, coreDispatch, coreSafety]
            rw [if_neg (fun h => h.2.1 rfl)]

theorem coreOf_start_inactive (c : Controller) (t : Nat) (online : Bool)
    (h : isActive c = false) :
    coreOf (start c t online).1 =
      { st := AlarmState.triggered, stage := t, astart := t, stats := c.lastStatistics } := by
  have hf := start_inactive_fields c t online h
  unfold coreOf
  rw [hf.2.1, hf.2.2.1, hf.2.2.2.1, hf.2.2.2.2.1]

theorem update_state_cases (c : Controller) (t : Nat) (hwIn : HwHealthIn) (online : Bool) :
    (update c t hwIn online).1.currentState = (stateDispatch c t online).1.currentState ∨
    (update c t hwIn online).1.currentState = AlarmState.idle := by
  simp only [update]
  rcases safetyPhase_good (stateDispatch c t online).1 t online with hs | hs
  · rcases healthPhase_good (safetyPhase (stateDispatch c t online).1 t online).1
        t hwIn online with hh | hh
    · left
      rw [hh.1, hs]
    · right
      exact hh.1
  · rcases healthPhase_good (safetyPhase (stateDispatch c t online).1 t online).1
        t hwIn online with hh | hh
    · right
      rw [hh.1]
      exact hs.1
    · right
      exact hh.1

theorem stateDispatch_rank (c : Controller) (t : Nat) (online : Bool) :
    stageRank c.currentState ≤ stageRank (stateDispatch c t online).1.currentState := by
  rcases stateDispatch_state c t online with hs | hs | hs | hs
  · rw [hs]
  all_goals rw [hs.2, hs.1]
  all_goals decide

theorem chh_fails_small (c : Controller) (hwIn : HwHealthIn) (online : Bool)
    (hst : c.currentState = AlarmState.warning ∨ c.currentState = AlarmState.alert)
    (hsm : hwIn.smallBuzzer = HwStatus.failed) :
    (checkHardwareHealth c hwIn online).2.2 = false := by
  unfold checkHardwareHealth
  rw [if_pos ⟨hst, hsm⟩]

theorem chh_fails_both (c : Controller) (hwIn : HwHealthIn) (online : Bool)
    (hsm : hwIn.smallBuzzer = HwStatus.failed) (hlg : hwIn.largeBuzzer = HwStatus.failed) :
    (checkHardwareHealth c hwIn online).2.2 = false := by
  unfold checkHardwareHealth
  split_ifs with h1 h2 h3
  · rfl
  · rfl
  · rfl
  · exact absurd ⟨hsm, hlg⟩ h3

theorem healthPhase_fail (c : Controller) (t : Nat) (hwIn : HwHealthIn) (online : Bool)
    (hA : isActive c = true) (hEn : c.hardwareChecksEnabled = true)
    (hDue : 10000 ≤ t - c.lastCheck)
    (hFail : (checkHardwareHealth { c with lastCheck := t } hwIn online).2.2 = false) :
    (healthPhase c t hwIn online).1.currentState = AlarmState.idle ∧
    (healthPhase c t hwIn online).1.lastStatistics =
      { startTime := c.alarmStartTime, stopTime := t,
        duration := (t - c.alarmStartTime) / 1000,
        stopSource := AlarmStopSource.hardwareError,
        maxStageReached := c.currentState,
        hardwareIssueDetected := true } ∧
    Eff.enteredState AlarmState.stoppedError ∈ (healthPhase c t hwIn online).2 := by
  have hact : isActive (checkHardwareHealth { c with lastCheck := t } hwIn online).1 = true := by
    unfold isActive
    rw [chh_currentState]
    exact hA
  have hf := stop_active_fields (checkHardwareHealth { c with lastCheck := t } hwIn online).1
    AlarmStopSource.hardwareError t online hact
  have hm := stop_active_mem (checkHardwareHealth { c with lastCheck := t } hwIn online).1
    AlarmStopSource.hardwareError t online hact
  simp only [healthPhase]
  rw [if_pos ⟨hA, hEn⟩, if_pos hDue, if_neg (by rw [hFail]; decide)]
  refine ⟨hf.2.1, ?_, ?_⟩
  · rw [hf.2.2.2.2.1]
    simp
  · have := hm.1
    rw [show stopStateFor AlarmStopSource.hardwareError = AlarmState.stoppedError from rfl] at this
    exact List.mem_append_right _ this

/-- C1: central safety invariant. In every controller state reachable by
any sequence of `start`, `stop` and `update` calls, whenever the machine is
not active both buzzer duty cycles are 0; and every successful
`stop(reason)` silences both actuators as its first effect, before
statistics are computed or any notification is sent (the effect trace of a
successful stop begins `silencedAll, statsComputed, …`, with every
notification strictly later). -/
theorem claim_C1_safety_invariant :
    (∀ c : Controller, Reachable c → isActive c = false →
        c.hw.smallDuty = 0 ∧ c.hw.largeDuty = 0) ∧
    (∀ (c : Controller) (src : AlarmStopSource) (t : Nat) (online : Bool),
        isActive c = true →
        (∃ rest, (stop c src t online).2.2 =
            Eff.silencedAll :: Eff.statsComputed :: rest) ∧
        (stop c src t online).1.hw.smallDuty = 0 ∧
        (stop c src t online).1.hw.largeDuty = 0) := by
  constructor
  · intro c hr hin
    have g := reachable_good c hr
    exact g.2 (g.1 hin)
  · intro c src t online h
    have hf := stop_active_fields c src t online h
    exact ⟨stop_active_trace c src t online h, hf.2.2.1, hf.2.2.2.1⟩

/-- Witness for C1 at concrete inputs: the initial controller is silenced,
and a concrete successful stop emits silencing first. -/
theorem claim_C1_safety_invariant_witness :
    (mkController.hw.smallDuty = 0 ∧ mkController.hw.largeDuty = 0) ∧
    (∃ rest, (stop (start mkController 5 false).1 AlarmStopSource.completed 6 false).2.2 =
        Eff.silencedAll :: Eff.statsComputed :: rest) :=
  ⟨claim_C1_safety_invariant.1 mkController Reachable.init (by decide),
   (claim_C1_safety_invariant.2 (start mkController 5 false).1
      AlarmStopSource.completed 6 false (by decide)).1⟩

/-- C2: a successful `stop(x)` from any active state performs both
transitions (through the matching `Stopped*` state and then to `Idle`)
within the same call; when it returns the state is `Idle`, `isActive` is
false and `start` immediately succeeds again; `Stopped*` states are never
observable between calls; and `start` immediately followed by `stop(x)`
always leaves the state `Idle`. -/
theorem claim_C2_stop_returns_idle :
    (∀ (c : Controller) (x : AlarmStopSource) (t : Nat) (online : Bool),
        isActive c = true →
        (stop c x t online).2.1 = true ∧
        Eff.enteredState (stopStateFor x) ∈ (stop c x t online).2.2 ∧
        Eff.enteredState AlarmState.idle ∈ (stop c x t online).2.2 ∧
        (stop c x t online).1.currentState = AlarmState.idle ∧
        isActive (stop c x t online).1 = false ∧
        (∀ (u : Nat) (o2 : Bool), (start (stop c x t online).1 u o2).2.1 = true)) ∧
    (∀ c : Controller, Reachable c →
        c.currentState ≠ AlarmState.stoppedUser ∧
        c.currentState ≠ AlarmState.stoppedTimeout ∧
        c.currentState ≠ AlarmState.stoppedError) ∧
    (∀ (c : Controller) (x : AlarmStopSource) (t u : Nat) (online : Bool),
        isActive c = false →
        (stop (start c t online).1 x u online).2.1 = true ∧
        (stop (start c t online).1 x u online).1.currentState = AlarmState.idle) := by
  refine ⟨?_, ?_, ?_⟩
  · intro c x t online h
    have hf := stop_active_fields c x t online h
    have hm := stop_active_mem c x t online h
    have hidle : isActive (stop c x t online).1 = false := by
      unfold isActive
      rw [hf.2.1]
      rfl
    refine ⟨hf.1, hm.1, hm.2, hf.2.1, hidle, ?_⟩
    intro u o2
    exact (start_inactive_fields (stop c x t online).1 u o2 hidle).1
  · intro c hr
    have g := reachable_good c hr
    refine ⟨?_, ?_, ?_⟩ <;> intro hc <;>
      · have hIn : isActive c = false := by
          unfold isActive
          rw [hc]
          rfl
        have h2 := g.1 hIn
        rw [hc] at h2
        exact absurd h2 (by decide)
  · intro c x t u online h
    have hs := start_inactive_fields c t online h
    have hact : isActive (start c t online).1 = true := by
      unfold isActive
      rw [hs.2.1]
      rfl
    have hf := stop_active_fields (start c t online).1 x u online hact
    exact ⟨hf.1, hf.2.1⟩

/-- Witness for C2: a concrete start–stop round trip through
`StoppedByUser` back to `Idle`, immediately restartable. -/
theorem claim_C2_stop_returns_idle_witness :
    (stop (start mkController 5 false).1 AlarmStopSource.none 6 false).2.1 = true ∧
    (stop (start mkController 5 false).1 AlarmStopSource.none 6 false).1.currentState =
      AlarmState.idle ∧
    (start (stop (start mkController 5 false).1 AlarmStopSource.none 6 false).1 7 false).2.1 =
      true ∧
    (stop (start mkController 9 true).1 AlarmStopSource.safetyTimeout 9 true).1.currentState =
      AlarmState.idle :=
  have h := claim_C2_stop_returns_idle.1 (start mkController 5 false).1
    AlarmStopSource.none 6 false (by decide)
  ⟨h.1, h.2.2.2.1, h.2.2.2.2.2 7 false,
   (claim_C2_stop_returns_idle.2.2 mkController AlarmStopSource.safetyTimeout 9 9 true
      (by decide)).2⟩

/-- Transfer of ghost-state facts back to controller projections, stated
with a symbolic tick count so that no kernel evaluation of the run is ever
forced. -/
theorem runTicks_core_facts (c : Controller) (t0 : Nat) (hwIn : HwHealthIn) (online : Bool)
    (n : Nat) (s : AlarmState) (g a : Nat) (st : AlarmStatistics)
    (h : coreOf (runTicks c t0 hwIn online n) =
      { st := s, stage := g, astart := a, stats := st }) :
    (runTicks c t0 hwIn online n).currentState = s ∧
    (runTicks c t0 hwIn online n).lastStatistics = st := by
  refine ⟨?_, ?_⟩
  · have h1 : (coreOf (runTicks c t0 hwIn online n)).st = s := by rw [h]
    exact h1
  · have h2 : (coreOf (runTicks c t0 hwIn online n)).stats = st := by rw [h]
    exact h2

/-- C3 (counterexample to the claim as stated): if `start()` succeeds at
clock value `T = 0`, `alarmStartTime` is recorded as 0, which is also the
"unset" sentinel checked by `isSafetyTimeoutReached`; the safety timeout
therefore never fires, and at `T + 300001` the machine is still in
`Emergency`, not `Idle` with `SafetyTimeout` — contradicting the claim's
universally quantified timeline at its `T + 300001` point. -/
theorem claim_C3_counterexample :
    (start mkController 0 false).2.1 = true ∧
    (runTicks (start mkController 0 false).1 0 healthyIn false 300001).currentState =
      AlarmState.emergency ∧
    ¬((runTicks (start mkController 0 false).1 0 healthyIn false 300001).currentState =
        AlarmState.idle ∧
      (runTicks (start mkController 0 false).1 0 healthyIn false
          300001).lastStatistics.stopSource = AlarmStopSource.safetyTimeout) := by
  have hEq : coreOf (runTicks (start mkController 0 false).1 0 healthyIn false 300001) =
      { st := phase0 300001, stage := phaseStart0 300001, astart := 0,
        stats := mkController.lastStatistics } := by
    rw [coreOf_runTicks_healthy, coreOf_start_inactive mkController 0 false (by decide),
        coreRun_phase0]
  have key := (runTicks_core_facts _ _ _ _ _ _ _ _ _ hEq).1
  rw [show phase0 300001 = AlarmState.emergency from by decide] at key
  exact ⟨by decide, key, fun hc => absurd (key.symm.trans hc.1) (by decide)⟩

/-- C3 (amended with `0 < T`): if `start()` succeeds at a positive clock
value `T` and no stop is called, with one healthy-hardware `update` tick on
every millisecond boundary, the state observed at `T+3001` is `Warning`,
at `T+33001` is `Alert`, at `T+63001` is `Emergency`, and at `T+300001` is
`Idle` with recorded stop reason `SafetyTimeout` (the safety timeout fires
even in `Emergency`). At `T = 0` the recorded start time collides with the
unset sentinel and the timeout is disabled (see the counterexample). -/
theorem claim_C3_escalation_timeline (c : Controller) (T : Nat) (online : Bool)
    (hIn : isActive c = false) (hT : 0 < T) :
    (runTicks (start c T online).1 T healthyIn online 3001).currentState =
      AlarmState.warning ∧
    (runTicks (start c T online).1 T healthyIn online 33001).currentState =
      AlarmState.alert ∧
    (runTicks (start c T online).1 T healthyIn online 63001).currentState =
      AlarmState.emergency ∧
    (runTicks (start c T online).1 T healthyIn online 300001).currentState =
      AlarmState.idle ∧
    (runTicks (start c T online).1 T healthyIn online 300001).lastStatistics.stopSource =
      AlarmStopSource.safetyTimeout := by
  have key : ∀ n, coreOf (runTicks (start c T online).1 T healthyIn online n) =
      { st := phase n, stage := phaseStart T n, astart := T,
        stats := if n < 300000 then c.lastStatistics else timeoutStats T } := by
    intro n
    rw [coreOf_runTicks_healthy, coreOf_start_inactive c T online hIn, coreRun_phase T hT]
  refine ⟨?_, ?_, ?_, ?_, ?_⟩
  · have h := (runTicks_core_facts _ _ _ _ _ _ _ _ _ (key 3001)).1
    rw [show phase 3001 = AlarmState.warning from by decide] at h
    exact h
  · have h := (runTicks_core_facts _ _ _ _ _ _ _ _ _ (key 33001)).1
    rw [show phase 33001 = AlarmState.alert from by decide] at h
    exact h
  · have h := (runTicks_core_facts _ _ _ _ _ _ _ _ _ (key 63001)).1
    rw [show phase 63001 = AlarmState.emergency from by decide] at h
    exact h
  · have h := (runTicks_core_facts _ _ _ _ _ _ _ _ _ (key 300001)).1
    rw [show phase 300001 = AlarmState.idle from by decide] at h
    exact h
  · have h := (runTicks_core_facts _ _ _ _ _ _ _ _ _ (key 300001)).2
    rw [if_neg (show ¬(300001 < 300000) by omega)] at h
    rw [h]
    rfl

/-- Witness for the amended C3 at `T = 1` from the freshly constructed
controller. -/
theorem claim_C3_escalation_timeline_witness :
    (runTicks (start mkController 1 false).1 1 healthyIn false 3001).currentState =
      AlarmState.warning ∧
    (runTicks (start mkController 1 false).1 1 healthyIn false 300001).currentState =
      AlarmState.idle ∧
    (runTicks (start mkController 1 false).1 1 healthyIn false 300001).lastStatistics.stopSource =
      AlarmStopSource.safetyTimeout :=
  have h := claim_C3_escalation_timeline mkController 1 false (by decide) (by decide)
  ⟨h.1, h.2.2.2.1, h.2.2.2.2⟩

/-- C4: invalid-call errors. From any reachable state, `start()` while not
`Idle` returns false with no state change; `stop(x)` while `Idle` or in a
`Stopped*` state returns false with no change to state or statistics; and
`testAlarm()` while active returns false with no state change. -/
theorem claim_C4_invalid_calls :
    (∀ (c : Controller) (t : Nat) (online : Bool), Reachable c →
        c.currentState ≠ AlarmState.idle → start c t online = (c, false, [])) ∧
    (∀ (c : Controller) (x : AlarmStopSource) (t : Nat) (online : Bool),
        (c.currentState = AlarmState.idle ∨ c.currentState = AlarmState.stoppedUser ∨
         c.currentState = AlarmState.stoppedTimeout ∨
         c.currentState = AlarmState.stoppedError) →
        stop c x t online = (c, false, [])) ∧
    (∀ (c : Controller) (online : Bool), isActive c = true →
        testAlarm c online = (c, false, [])) := by
  refine ⟨?_, ?_, ?_⟩
  · intro c t online hr hne
    by_cases hA : isActive c = true
    · exact start_active c t online hA
    · have hIn : isActive c = false := by simpa using hA
      exact absurd ((reachable_good c hr).1 hIn) hne
  · intro c x t online hc
    exact stop_inactive c x t online ((isActiveState_false_iff c.currentState).mpr hc)
  · intro c online hA
    exact testAlarm_active c online hA

/-- Witness for C4 at concrete inputs. -/
theorem claim_C4_invalid_calls_witness :
    start (start mkController 5 false).1 6 false = ((start mkController 5 false).1, false, []) ∧
    stop mkController AlarmStopSource.completed 3 false = (mkController, false, []) ∧
    testAlarm (start mkController 5 false).1 false =
      ((start mkController 5 false).1, false, []) :=
  ⟨claim_C4_invalid_calls.1 (start mkController 5 false).1 6 false
      (Reachable.startStep mkController 5 false Reachable.init) (by decide),
   claim_C4_invalid_calls.2.1 mkController AlarmStopSource.completed 3 false
      (Or.inl (by decide)),
   claim_C4_invalid_calls.2.2 (start mkController 5 false).1 false (by decide)⟩

/-- C5: statistics of a completed session. Recorded duration equals
`(stopTime − startTime) / 1000` and is never negative (start ≤ stop, given
the monotone clock); `maxStageReached` equals the current state at the
moment `stop` is invoked; `hardwareIssueDetected` holds exactly for
`HardwareFailure`; and the stage never de-escalates across an `update`
that leaves the machine active (so the state at stop time is the highest
stage reached). -/
theorem claim_C5_statistics :
    (∀ (c : Controller) (x : AlarmStopSource) (t : Nat) (online : Bool),
        isActive c = true → c.alarmStartTime ≤ t →
        (stop c x t online).1.lastStatistics.startTime = c.alarmStartTime ∧
        (stop c x t online).1.lastStatistics.stopTime = t ∧
        (stop c x t online).1.lastStatistics.duration =
          ((stop c x t online).1.lastStatistics.stopTime -
            (stop c x t online).1.lastStatistics.startTime) / 1000 ∧
        (stop c x t online).1.lastStatistics.startTime ≤
          (stop c x t online).1.lastStatistics.stopTime ∧
        (stop c x t online).1.lastStatistics.maxStageReached = c.currentState ∧
        ((stop c x t online).1.lastStatistics.hardwareIssueDetected = true ↔
          x = AlarmStopSource.hardwareError)) ∧
    (∀ (c : Controller) (t : Nat) (hwIn : HwHealthIn) (online : Bool),
        isActive c = true → isActive (update c t hwIn online).1 = true →
        stageRank c.currentState ≤ stageRank (update c t hwIn online).1.currentState) := by
  constructor
  · intro c x t online hA hle
    have hf := stop_active_fields c x t online hA
    rw [hf.2.2.2.2.1]
    exact ⟨rfl, rfl, rfl, hle, rfl, by simp⟩
  · intro c t hwIn online hA hA2
    rcases update_state_cases c t hwIn online with hu | hu
    · rw [hu]
      exact stateDispatch_rank c t online
    · exfalso
      unfold isActive at hA2
      rw [hu] at hA2
      exact absurd hA2 (by decide)

/-- Witness for C5 at a concrete stop. -/
theorem claim_C5_statistics_witness :
    (stop (start mkController 5 false).1 AlarmStopSource.hardwareError 1500 false).1.lastStatistics.duration =
      ((stop (start mkController 5 false).1 AlarmStopSource.hardwareError 1500
          false).1.lastStatistics.stopTime -
        (stop (start mkController 5 false).1 AlarmStopSource.hardwareError 1500
          false).1.lastStatistics.startTime) / 1000 ∧
    (stop (start mkController 5 false).1 AlarmStopSource.hardwareError 1500
        false).1.lastStatistics.maxStageReached = (start mkController 5 false).1.currentState ∧
    ((stop (start mkController 5 false).1 AlarmStopSource.hardwareError 1500
        false).1.lastStatistics.hardwareIssueDetected = true ↔
      AlarmStopSource.hardwareError = AlarmStopSource.hardwareError) :=
  have h := claim_C5_statistics.1 (start mkController 5 false).1
    AlarmStopSource.hardwareError 1500 false (by decide) (by decide)
  ⟨h.2.2.1, h.2.2.2.2.1, h.2.2.2.2.2⟩

/-- The controller state reached from a fresh controller by `start` at
clock 1 (bot online) and healthy `update` ticks at 3001 (escalates to
Warning), 33001 (escalates to Alert; health check runs), 43001 and 53001
(health checks run, `lastCheck` becomes 53001). -/
def c6state : Controller :=
  (update (update (update (update (start mkController 1 true).1
      3001 healthyIn true).1 33001 healthyIn true).1 43001 healthyIn true).1
    53001 healthyIn true).1

/-- C6 (counterexample to the claim as stated): in the reachable state
`c6state` the machine is in `Alert` with `lastCheck = 53001`; if the small
buzzer circuit then fails, the first subsequent tick at which the
rate-limited health check is due is exactly the 63001 boundary tick, which
escalates `Alert` to `Emergency` before the check runs; the check then
only examines the (healthy) large buzzer, passes, and no stop occurs —
the machine stays in `Emergency` instead of going `Idle` via
`StoppedByError`, contradicting the claim for the small-buzzer-failed-
during-Alert case. -/
theorem claim_C6_counterexample :
    Reachable c6state ∧
    isActive c6state = true ∧
    c6state.hardwareChecksEnabled = true ∧
    c6state.currentState = AlarmState.alert ∧
    10000 ≤ 63001 - c6state.lastCheck ∧
    (update c6state 63001 { smallBuzzer := HwStatus.failed, largeBuzzer := HwStatus.ok }
        true).1.currentState = AlarmState.emergency ∧
    (update c6state 63001 { smallBuzzer := HwStatus.failed, largeBuzzer := HwStatus.ok }
        true).1.lastStatistics.stopSource ≠ AlarmStopSource.hardwareError := by
  refine ⟨?_, by decide, by decide, by decide, by decide, by decide, by decide⟩
  exact Reachable.updateStep _ _ _ _ (Reachable.updateStep _ _ _ _
    (Reachable.updateStep _ _ _ _ (Reachable.updateStep _ _ _ _
      (Reachable.startStep _ _ _ Reachable.init))))

/-- Conclusion pattern of a forced hardware stop: the `update` tick at
`t` leaves the machine `Idle` via `StoppedByError`, with recorded stop
reason `HardwareFailure` and `hardwareIssueDetected = true`. -/
def stopsWithHardwareError (c : Controller) (t : Nat) (hwIn : HwHealthIn)
    (online : Bool) : Prop :=
  (update c t hwIn online).1.currentState = AlarmState.idle ∧
  (update c t hwIn online).1.lastStatistics.stopSource = AlarmStopSource.hardwareError ∧
  (update c t hwIn online).1.lastStatistics.hardwareIssueDetected = true ∧
  Eff.enteredState AlarmState.stoppedError ∈ (update c t hwIn online).2

theorem chh_fails_large (c : Controller) (hwIn : HwHealthIn) (online : Bool)
    (hst : c.currentState = AlarmState.emergency)
    (hlg : hwIn.largeBuzzer = HwStatus.failed) :
    (checkHardwareHealth c hwIn online).2.2 = false := by
  unfold checkHardwareHealth
  rw [if_neg (fun h => by rcases h.1 with h1 | h1 <;> rw [hst] at h1 <;> cases h1)]
  rw [if_pos ⟨hst, hlg⟩]

theorem stateDispatch_alert_stay (c : Controller) (t : Nat) (online : Bool)
    (hc : c.currentState = AlarmState.alert)
    (hlt : t - c.stageStartTime < ALARM_ALERT_DURATION_MS) :
    (stateDispatch c t online).1.currentState = AlarmState.alert := by
  have hb : isStageDurationExceeded (updateBuzzerOutput c t) t = false := by
    unfold isStageDurationExceeded
    rw [updateBuzzerOutput_currentState, updateBuzzerOutput_stageStartTime, hc]
    exact decide_eq_false
      (by rw [show getStateDuration AlarmState.alert = ALARM_ALERT_DURATION_MS from rfl]
          omega)
  simp only [stateDispatch, hc]
  rw [if_neg (by rw [hb]; decide)]
  simp [hc]

theorem update_check_fail (c : Controller) (t : Nat) (hwIn : HwHealthIn) (online : Bool)
    (hA : isActive c = true)
    (hEn : c.hardwareChecksEnabled = true)
    (hDue : 10000 ≤ t - c.lastCheck)
    (hTo : isSafetyTimeoutReached c t = false)
    (hFail : (checkHardwareHealth { (stateDispatch c t online).1 with lastCheck := t }
        hwIn online).2.2 = false) :
    stopsWithHardwareError c t hwIn online := by
  have hdA : isActive (stateDispatch c t online).1 = true := stateDispatch_active c t online hA
  have hTo2 : isSafetyTimeoutReached (stateDispatch c t online).1 t = false := by
    unfold isSafetyTimeoutReached at hTo ⊢
    rw [stateDispatch_alarmStartTime]
    exact hTo
  have hsp : safetyPhase (stateDispatch c t online).1 t online =
      ((stateDispatch c t online).1, []) := by
    unfold safetyPhase
    rw [if_neg (fun h => absurd h.2 (by rw [hTo2]; decide))]
  have hhp := healthPhase_fail (stateDispatch c t online).1 t hwIn online hdA
    (by rw [stateDispatch_checksEnabled]; exact hEn)
    (by rw [stateDispatch_lastCheck]; exact hDue) hFail
  unfold stopsWithHardwareError
  simp only [update, hsp]
  refine ⟨hhp.1, ?_, ?_, ?_⟩
  · rw [hhp.2.1]
  · rw [hhp.2.1]
  · exact List.mem_append_right _ hhp.2.2

/-- C6 (amended): if the health check is due at an active tick (checks
enabled), the safety timeout has not been reached, and the stage as of
the check — i.e. after any same-tick escalation — still makes the failed
actuator relevant (small buzzer `Failed` with the post-dispatch stage
`Warning` or `Alert`, large buzzer `Failed` with the post-dispatch stage
`Emergency`, or both buzzers `Failed` in any case), then that tick stops
the machine to `Idle` via `StoppedByError` with stop reason
`HardwareFailure` and `hardwareIssueDetected = true`. In particular this
holds whenever the state at the tick is `Warning` with the small buzzer
`Failed` (a same-tick escalation can only reach `Alert`, where the small
buzzer is still relevant), whenever the state is `Emergency` with the
large buzzer `Failed`, whenever the state is `Alert` with the small
buzzer `Failed` and the stage not yet expired at the tick, and whenever
both buzzers are `Failed`. The only case the counterexample removes is a
tick that simultaneously escalates `Alert` to `Emergency` with a
small-buzzer-only failure. -/
theorem claim_C6_hardware_failure_stop :
    (∀ (c : Controller) (t : Nat) (hwIn : HwHealthIn) (online : Bool),
        isActive c = true → c.hardwareChecksEnabled = true →
        10000 ≤ t - c.lastCheck → isSafetyTimeoutReached c t = false →
        ((((stateDispatch c t online).1.currentState = AlarmState.warning ∨
           (stateDispatch c t online).1.currentState = AlarmState.alert) ∧
          hwIn.smallBuzzer = HwStatus.failed) ∨
         ((stateDispatch c t online).1.currentState = AlarmState.emergency ∧
          hwIn.largeBuzzer = HwStatus.failed) ∨
         (hwIn.smallBuzzer = HwStatus.failed ∧ hwIn.largeBuzzer = HwStatus.failed)) →
        stopsWithHardwareError c t hwIn online) ∧
    (∀ (c : Controller) (t : Nat) (hwIn : HwHealthIn) (online : Bool),
        isActive c = true → c.hardwareChecksEnabled = true →
        10000 ≤ t - c.lastCheck → isSafetyTimeoutReached c t = false →
        c.currentState = AlarmState.warning → hwIn.smallBuzzer = HwStatus.failed →
        stopsWithHardwareError c t hwIn online) ∧
    (∀ (c : Controller) (t : Nat) (hwIn : HwHealthIn) (online : Bool),
        isActive c = true → c.hardwareChecksEnabled = true →
        10000 ≤ t - c.lastCheck → isSafetyTimeoutReached c t = false →
        c.currentState = AlarmState.emergency → hwIn.largeBuzzer = HwStatus.failed →
        stopsWithHardwareError c t hwIn online) ∧
    (∀ (c : Controller) (t : Nat) (hwIn : HwHealthIn) (online : Bool),
        isActive c = true → c.hardwareChecksEnabled = true →
        10000 ≤ t - c.lastCheck → isSafetyTimeoutReached c t = false →
        c.currentState = AlarmState.alert → hwIn.smallBuzzer = HwStatus.failed →
        t - c.stageStartTime < ALARM_ALERT_DURATION_MS →
        stopsWithHardwareError c t hwIn online) ∧
    (∀ (c : Controller) (t : Nat) (hwIn : HwHealthIn) (online : Bool),
        isActive c = true → c.hardwareChecksEnabled = true →
        10000 ≤ t - c.lastCheck → isSafetyTimeoutReached c t = false →
        hwIn.smallBuzzer = HwStatus.failed → hwIn.largeBuzzer = HwStatus.failed →
        stopsWithHardwareError c t hwIn online) := by
  have general : ∀ (c : Controller) (t : Nat) (hwIn : HwHealthIn) (online : Bool),
      isActive c = true → c.hardwareChecksEnabled = true →
      10000 ≤ t - c.lastCheck → isSafetyTimeoutReached c t = false →
      ((((stateDispatch c t online).1.currentState = AlarmState.warning ∨
         (stateDispatch c t online).1.currentState = AlarmState.alert) ∧
        hwIn.smallBuzzer = HwStatus.failed) ∨
       ((stateDispatch c t online).1.currentState = AlarmState.emergency ∧
        hwIn.largeBuzzer = HwStatus.failed) ∨
       (hwIn.smallBuzzer = HwStatus.failed ∧ hwIn.largeBuzzer = HwStatus.failed)) →
      stopsWithHardwareError c t hwIn online := by
    intro c t hwIn online hA hEn hDue hTo hRel
    apply update_check_fail c t hwIn online hA hEn hDue hTo
    rcases hRel with ⟨hw1, hs1⟩ | ⟨hst, hl1⟩ | ⟨hs1, hl1⟩
    · exact chh_fails_small _ hwIn online hw1 hs1
    · exact chh_fails_large _ hwIn online hst hl1
    · exact chh_fails_both _ hwIn online hs1 hl1
  refine ⟨general, ?_, ?_, ?_, ?_⟩
  · intro c t hwIn online hA hEn hDue hTo hw hsm
    apply general c t hwIn online hA hEn hDue hTo
    left
    refine ⟨?_, hsm⟩
    rcases stateDispatch_state c t online with hd | hd | hd | hd
    · left
      rw [hd]
      exact hw
    · exact absurd (hd.1.symm.trans hw) (by decide)
    · right
      exact hd.2
    · exact absurd (hd.1.symm.trans hw) (by decide)
  · intro c t hwIn online hA hEn hDue hTo he hlg
    apply general c t hwIn online hA hEn hDue hTo
    right
    left
    refine ⟨?_, hlg⟩
    rcases stateDispatch_state c t online with hd | hd | hd | hd
    · rw [hd]
      exact he
    · exact absurd (hd.1.symm.trans he) (by decide)
    · exact absurd (hd.1.symm.trans he) (by decide)
    · exact absurd (hd.1.symm.trans he) (by decide)
  · intro c t hwIn online hA hEn hDue hTo ha hsm hlt
    apply general c t hwIn online hA hEn hDue hTo
    left
    exact ⟨Or.inr (stateDispatch_alert_stay c t online ha hlt), hsm⟩
  · intro c t hwIn online hA hEn hDue hTo hsm hlg
    apply general c t hwIn online hA hEn hDue hTo
    right
    right
    exact ⟨hsm, hlg⟩

/-- Witness for the amended C6 at concrete inputs exercising three of the
cases: a warning-stage tick with a failed small buzzer, an emergency-stage
tick with a failed large buzzer, and a mid-stage alert tick with a failed
small buzzer all stop to `Idle` via `StoppedByError`. -/
theorem claim_C6_hardware_failure_stop_witness :
    stopsWithHardwareError
      { mkController with currentState := AlarmState.warning, stageStartTime := 3001,
                          alarmStartTime := 1, lastCheck := 1 }
      12000 { smallBuzzer := HwStatus.failed, largeBuzzer := HwStatus.ok } true ∧
    stopsWithHardwareError
      { mkController with currentState := AlarmState.emergency, stageStartTime := 63001,
                          alarmStartTime := 1, lastCheck := 53001 }
      70000 { smallBuzzer := HwStatus.ok, largeBuzzer := HwStatus.failed } true ∧
    stopsWithHardwareError
      { mkController with currentState := AlarmState.alert, stageStartTime := 33001,
                          alarmStartTime := 1, lastCheck := 33001 }
      43001 { smallBuzzer := HwStatus.failed, largeBuzzer := HwStatus.ok } true :=
  ⟨claim_C6_hardware_failure_stop.2.1
      { mkController with currentState := AlarmState.warning, stageStartTime := 3001,
                          alarmStartTime := 1, lastCheck := 1 }
      12000 { smallBuzzer := HwStatus.failed, largeBuzzer := HwStatus.ok } true
      (by decide) (by decide) (by decide) (by decide) (by decide) (by decide),
   claim_C6_hardware_failure_stop.2.2.1
      { mkController with currentState := AlarmState.emergency, stageStartTime := 63001,
                          alarmStartTime := 1, lastCheck := 53001 }
      70000 { smallBuzzer := HwStatus.ok, largeBuzzer := HwStatus.failed } true
      (by decide) (by decide) (by decide) (by decide) (by decide) (by decide),
   claim_C6_hardware_failure_stop.2.2.2.1
      { mkController with currentState := AlarmState.alert, stageStartTime := 33001,
                          alarmStartTime := 1, lastCheck := 33001 }
      43001 { smallBuzzer := HwStatus.failed, largeBuzzer := HwStatus.ok } true
      (by decide) (by decide) (by decide) (by decide) (by decide) (by decide) (by decide)⟩

theorem debounceButton_no_reset (b : ButtonState) (t : Nat) (r : Bool)
    (h1 : r = b.lastReading) (hw : ¬(BUTTON_DEBOUNCE_MS < t - b.lastChange)) :
    debounceButton t r b = b := by
  simp only [debounceButton]
  rw [if_neg (show ¬(r ≠ b.lastReading) by simp [h1])]
  rw [if_neg hw]

theorem debounceButton_steady (b : ButtonState) (t : Nat) (r : Bool)
    (h1 : b.lastReading = r) (h2 : b.stableState = r) :
    debounceButton t r b = b := by
  simp only [debounceButton]
  rw [if_neg (show ¬(r ≠ b.lastReading) by simp [h1])]
  by_cases hw : BUTTON_DEBOUNCE_MS < t - b.lastChange
  · rw [if_pos hw, if_neg (show ¬(r ≠ b.stableState) by simp [h2])]
  · rw [if_neg hw]

theorem debounce_chatter (polls : List (Nat × Bool)) (b : ButtonState)
    (h : chatterBounded b.lastChange b.lastReading polls = true) :
    debounceOutputs b polls = polls.map fun _ => b.stableState := by
  induction polls generalizing b with
  | nil => rfl
  | cons p ps ih =>
    obtain ⟨t, r⟩ := p
    by_cases hr : r = b.lastReading
    · simp only [chatterBounded] at h
      rw [if_neg (show ¬(r ≠ b.lastReading) by simp [hr])] at h
      have h1 : t - b.lastChange ≤ BUTTON_DEBOUNCE_MS :=
        of_decide_eq_true ((Bool.and_eq_true _ _).mp h).1
      have h2 := ((Bool.and_eq_true _ _).mp h).2
      have hb := debounceButton_no_reset b t r hr (by omega)
      simp only [debounceOutputs, hb, List.map_cons]
      rw [ih b h2]
    · simp only [chatterBounded] at h
      rw [if_pos (show r ≠ b.lastReading from hr)] at h
      have hb : debounceButton t r b =
          { b with lastChange := t, lastReading := r } := by
        simp only [debounceButton]
        rw [if_pos (show r ≠ b.lastReading from hr)]
        rw [if_neg (show ¬(BUTTON_DEBOUNCE_MS < t - t) by omega)]
      simp only [debounceOutputs, hb, List.map_cons]
      rw [ih { b with lastChange := t, lastReading := r } h]

theorem debounce_steady_run (b : ButtonState) (r : Bool) (ts : List Nat)
    (h1 : b.lastReading = r) (h2 : b.stableState = r) :
    debounceOutputs b (ts.map fun t => (t, r)) = ts.map fun _ => b.stableState := by
  induction ts with
  | nil => rfl
  | cons t ts ih =>
    simp only [List.map_cons, debounceOutputs, debounceButton_steady b t r h1 h2]
    rw [ih]

theorem debounce_hold_run (b : Bool) (t1 : Nat) (ts : List Nat)
    (hsorted : List.Pairwise (fun x y => x ≤ y) ts) :
    debounceOutputs { lastReading := !b, stableState := b, lastChange := t1 }
        (ts.map fun t => (t, !b)) =
      ts.map fun t => if BUTTON_DEBOUNCE_MS < t - t1 then !b else b := by
  induction ts with
  | nil => rfl
  | cons t ts ih =>
    rcases List.pairwise_cons.mp hsorted with ⟨hh, ht⟩
    by_cases hw : BUTTON_DEBOUNCE_MS < t - t1
    · have hb : debounceButton t (!b)
          { lastReading := !b, stableState := b, lastChange := t1 } =
          { lastReading := !b, stableState := !b, lastChange := t1 } := by
        simp only [debounceButton]
        rw [if_neg (show ¬((!b) ≠
              ({ lastReading := !b, stableState := b, lastChange := t1 } :
                ButtonState).lastReading) by simp)]
        rw [if_pos (show BUTTON_DEBOUNCE_MS < t -
              ({ lastReading := !b, stableState := b, lastChange := t1 } :
                ButtonState).lastChange from hw)]
        rw [if_pos (show (!b) ≠
              ({ lastReading := !b, stableState := b, lastChange := t1 } :
                ButtonState).stableState by cases b <;> simp)]
      simp only [List.map_cons, debounceOutputs, hb]
      rw [if_pos hw]
      rw [debounce_steady_run
            { lastReading := !b, stableState := !b, lastChange := t1 } (!b) ts rfl rfl]
      have : ts.map (fun t2 => if BUTTON_DEBOUNCE_MS < t2 - t1 then !b else b) =
          ts.map fun _ => !b := by
        apply List.map_congr_left
        intro a ha
        exact if_pos (by have := hh a ha; omega)
      rw [this]
    · have hb : debounceButton t (!b)
          { lastReading := !b, stableState := b, lastChange := t1 } =
          { lastReading := !b, stableState := b, lastChange := t1 } :=
        debounceButton_no_reset _ t (!b) rfl hw
      simp only [List.map_cons, debounceOutputs, hb]
      rw [if_neg hw, ih ht]

theorem debounce_single_change (b : Bool) (lc t1 : Nat) (rest : List Nat)
    (hsorted : List.Pairwise (fun x y => x ≤ y) (t1 :: rest)) :
    debounceOutputs { lastReading := b, stableState := b, lastChange := lc }
        ((t1 :: rest).map fun t => (t, !b)) =
      (t1 :: rest).map fun t => if BUTTON_DEBOUNCE_MS < t - t1 then !b else b := by
  have hb : debounceButton t1 (!b)
      { lastReading := b, stableState := b, lastChange := lc } =
      { lastReading := !b, stableState := b, lastChange := t1 } := by
    simp only [debounceButton]
    rw [if_pos (show (!b) ≠
          ({ lastReading := b, stableState := b, lastChange := lc } :
            ButtonState).lastReading by cases b <;> simp)]
    rw [if_neg (show ¬(BUTTON_DEBOUNCE_MS < t1 - t1) by omega)]
  simp only [List.map_cons, debounceOutputs, hb]
  rw [if_neg (show ¬(BUTTON_DEBOUNCE_MS < t1 - t1) by omega)]
  rw [debounce_hold_run b t1 rest (List.pairwise_cons.mp hsorted).2]

theorem changeCount_const {α : Type} (x : Bool) (l : List α) :
    changeCount x (l.map fun _ => x) = 0 := by
  induction l with
  | nil => rfl
  | cons y l ih =>
    simp only [List.map_cons, changeCount]
    rw [if_neg (by simp), ih]

theorem changeCount_threshold (b : Bool) (t1 : Nat) (ts : List Nat)
    (hsorted : List.Pairwise (fun x y => x ≤ y) ts) :
    changeCount b (ts.map fun t => if BUTTON_DEBOUNCE_MS < t - t1 then !b else b) =
      (if ts.any (fun t => decide (BUTTON_DEBOUNCE_MS < t - t1)) = true then 1 else 0) := by
  induction ts with
  | nil => simp [changeCount]
  | cons t ts ih =>
    rcases List.pairwise_cons.mp hsorted with ⟨hh, ht⟩
    by_cases hw : BUTTON_DEBOUNCE_MS < t - t1
    · rw [List.map_cons, if_pos hw]
      simp only [changeCount]
      rw [if_pos (show (!b) ≠ b by cases b <;> simp)]
      have hmap : ts.map (fun t2 => if BUTTON_DEBOUNCE_MS < t2 - t1 then !b else b) =
          ts.map fun _ => !b := by
        apply List.map_congr_left
        intro a ha
        exact if_pos (by have := hh a ha; omega)
      rw [hmap, changeCount_const]
      rw [if_pos (by simp [List.any_cons]; left; exact hw)]
    · rw [List.map_cons, if_neg hw]
      simp only [changeCount]
      rw [if_neg (by simp), ih ht]
      have hany : (t :: ts).any (fun t2 => decide (BUTTON_DEBOUNCE_MS < t2 - t1)) =
          ts.any (fun t2 => decide (BUTTON_DEBOUNCE_MS < t2 - t1)) := by
        simp [List.any_cons, hw]
      rw [hany]
      omega

/-- C7 (counterexample to the claim as stated): a single raw change held
constant for exactly the 50 ms settle window never reaches the stable
state, because `Hardware::debounceButton` accepts a change only when the
elapsed time is strictly greater than `BUTTON_DEBOUNCE_MS`. The raw value
flips at time 1 and is held through time 51 — a hold of exactly 50 ms —
yet every debounced output stays `false`, so the stable state changes
zero times, not once. -/
theorem claim_C7_counterexample :
    (51 : Nat) - 1 = BUTTON_DEBOUNCE_MS ∧
    debounceOutputs { lastReading := false, stableState := false, lastChange := 0 }
        [(1, true), (51, true)] = [false, false] ∧
    (debounceRun { lastReading := false, stableState := false, lastChange := 0 }
        [(1, true), (51, true)]).stableState = false := by
  refine ⟨by decide, by decide, by decide⟩

/-- C7 (amended): raw chatter in which every repeat of the previous
reading arrives within the settle window — in particular any alternation
faster than the window — never changes the stable state; and a single raw
change held constant for strictly more than the settle window (at
millisecond resolution: at least 51 ms, since acceptance requires elapsed
strictly greater than 50 ms) changes the stable state exactly once: the
outputs equal the initial stable value until the settle window is
strictly exceeded and the new value afterwards, so the number of output
changes is one when some poll exceeds the window and zero otherwise. -/
theorem claim_C7_debounce :
    (∀ (b0 : ButtonState) (polls : List (Nat × Bool)),
        chatterBounded b0.lastChange b0.lastReading polls = true →
        debounceOutputs b0 polls = polls.map fun _ => b0.stableState) ∧
    (∀ (b : Bool) (lc t1 : Nat) (rest : List Nat),
        List.Pairwise (fun x y => x ≤ y) (t1 :: rest) →
        debounceOutputs { lastReading := b, stableState := b, lastChange := lc }
            ((t1 :: rest).map fun t => (t, !b)) =
          (t1 :: rest).map (fun t => if BUTTON_DEBOUNCE_MS < t - t1 then !b else b) ∧
        changeCount b
            (debounceOutputs { lastReading := b, stableState := b, lastChange := lc }
              ((t1 :: rest).map fun t => (t, !b))) =
          (if ((t1 :: rest).any fun t => decide (BUTTON_DEBOUNCE_MS < t - t1)) = true
           then 1 else 0)) := by
  constructor
  · intro b0 polls h
    exact debounce_chatter polls b0 h
  · intro b lc t1 rest hsorted
    have hout := debounce_single_change b lc t1 rest hsorted
    refine ⟨hout, ?_⟩
    rw [hout]
    exact changeCount_threshold b t1 (t1 :: rest) (by
      refine List.pairwise_cons.mpr ⟨?_, (List.pairwise_cons.mp hsorted).2⟩
      intro a ha
      exact (List.pairwise_cons.mp hsorted).1 a ha)

/-- Witness for the amended C7: concrete chatter leaves the stable state
unchanged; a concrete hold of 51 ms flips it exactly once. -/
theorem claim_C7_debounce_witness :
    debounceOutputs { lastReading := false, stableState := false, lastChange := 0 }
        [(10, true), (20, false), (30, true)] =
      [(10, true), (20, false), (30, true)].map
        (fun _ => ({ lastReading := false, stableState := false,
                     lastChange := 0 } : ButtonState).stableState) ∧
    changeCount false
        (debounceOutputs { lastReading := false, stableState := false, lastChange := 100 }
          (([200, 240, 251, 260] : List Nat).map fun t => (t, !false))) =
      (if (([200, 240, 251, 260] : List Nat).any
            fun t => decide (BUTTON_DEBOUNCE_MS < t - 200)) = true
       then 1 else 0) :=
  ⟨claim_C7_debounce.1 { lastReading := false, stableState := false, lastChange := 0 }
      [(10, true), (20, false), (30, true)] (by decide),
   (claim_C7_debounce.2 false 100 200 [240, 251, 260] (by decide)).2⟩

/-- Helper: an unbroken-press certificate for a nonzero hold timestamp.
If the tick times are positive and the fold of the reset-hold update ends
nonzero, the run ends with a suffix of stably-pressed ticks whose first
tick carries exactly the recorded timestamp, or the timestamp was carried
through an all-pressed run from the start. -/
theorem holdRun_unbroken (ticks : List (Nat × Bool)) (p0 : Nat)
    (hpos : ∀ x ∈ ticks, 0 < x.1) :
    holdRun p0 ticks = 0 ∨
    (holdRun p0 ticks = p0 ∧ ∀ x ∈ ticks, x.2 = true) ∨
    (∃ pre t rest, ticks = pre ++ (t, true) :: rest ∧ holdRun p0 ticks = t ∧
      ∀ x ∈ rest, x.2 = true) := by
  induction ticks generalizing p0 with
  | nil => exact Or.inr (Or.inl ⟨rfl, by simp⟩)
  | cons x ticks ih =>
    obtain ⟨t, bv⟩ := x
    have hpos' : ∀ y ∈ ticks, 0 < y.1 := fun y hy => hpos y (List.mem_cons_of_mem _ hy)
    have hstep : holdRun p0 ((t, bv) :: ticks) = holdRun (updateResetHold bv t p0) ticks := rfl
    cases bv with
    | false =>
      have hz : updateResetHold false t p0 = 0 := rfl
      rcases ih 0 hpos' with h | h | h
      · left
        rw [hstep, hz]
        exact h
      · left
        rw [hstep, hz]
        exact h.1
      · right
        right
        obtain ⟨pre, u, rest, hsplit, hval, hrest⟩ := h
        exact ⟨(t, false) :: pre, u, rest, by rw [hsplit, List.cons_append], by rw [hstep, hz]; exact hval, hrest⟩
    | true =>
      by_cases hp : p0 = 0
      · have hv : updateResetHold true t p0 = t := by simp [updateResetHold, hp]
        rcases ih t hpos' with h | h | h
        · left
          rw [hstep, hv]
          exact h
        · right
          right
          refine ⟨[], t, ticks, by simp, by rw [hstep, hv]; exact h.1, h.2⟩
        · right
          right
          obtain ⟨pre, u, rest, hsplit, hval, hrest⟩ := h
          exact ⟨(t, true) :: pre, u, rest, by rw [hsplit, List.cons_append], by rw [hstep, hv]; exact hval, hrest⟩
      · have hv : updateResetHold true t p0 = p0 := by simp [updateResetHold, hp]
        rcases ih p0 hpos' with h | h | h
        · left
          rw [hstep, hv]
          exact h
        · right
          left
          refine ⟨by rw [hstep, hv]; exact h.1, ?_⟩
          intro y hy
          rcases List.mem_cons.mp hy with hy | hy
          · rw [hy]
          · exact h.2 y hy
        · right
          right
          obtain ⟨pre, u, rest, hsplit, hval, hrest⟩ := h
          exact ⟨(t, true) :: pre, u, rest, by rw [hsplit, List.cons_append], by rw [hstep, hv]; exact hval, hrest⟩

/-- C8 (counterexample to the claim as stated): at the boot instant
`millis() == 0`, a tick with the stable state pressed leaves the hold
timestamp at 0, i.e. unset — because 0 doubles as the unset sentinel —
so the timestamp is not "unset exactly when the stable state is
released": here it is unset while pressed, and no hold measured from the
boot instant can ever satisfy the threshold. -/
theorem claim_C8_counterexample :
    updateResetHold true 0 0 = 0 ∧ (true : Bool) ≠ false ∧
    isFactoryResetRequested 20000 (updateResetHold true 0 0) = false := by
  refine ⟨rfl, by decide, rfl⟩

/-- C8 (amended for ticks at positive clock values): at any tick with
`0 < t`, the new hold timestamp is unset exactly when the stable state is
released; a release followed by a re-press restarts the timer at the
re-press tick; and over any tick run starting from the unset timestamp,
`isFactoryResetRequested` returns true only when the run ends in an
unbroken stably-pressed suffix whose first tick is the recorded
timestamp, at least `RESET_HOLD_TIME_MS` before the query time — partial
holds never accumulate across separate presses. -/
theorem claim_C8_long_hold :
    (∀ (t p : Nat) (pressed : Bool), 0 < t →
        (updateResetHold pressed t p = 0 ↔ pressed = false)) ∧
    (∀ (t1 t2 p : Nat), updateResetHold true t2 (updateResetHold false t1 p) = t2) ∧
    (∀ (ticks : List (Nat × Bool)) (T : Nat),
        (∀ x ∈ ticks, 0 < x.1) →
        isFactoryResetRequested T (holdRun 0 ticks) = true →
        ∃ pre t rest, ticks = pre ++ (t, true) :: rest ∧ (∀ x ∈ rest, x.2 = true) ∧
          holdRun 0 ticks = t ∧ RESET_HOLD_TIME_MS ≤ T - t) := by
  refine ⟨?_, ?_, ?_⟩
  · intro t p pressed ht
    cases pressed with
    | false => simp [updateResetHold]
    | true =>
      simp only [updateResetHold, if_pos rfl]
      constructor
      · intro h
        by_cases hp : p = 0
        · exfalso
          rw [if_pos hp] at h
          have h2 : t = 0 := h
          omega
        · rw [if_neg hp] at h
          exact absurd h hp
      · intro h
        exact absurd h (by decide)
  · intro t1 t2 p
    rfl
  · intro ticks T hpos hfrr
    have hne : holdRun 0 ticks ≠ 0 ∧ RESET_HOLD_TIME_MS ≤ T - holdRun 0 ticks := by
      unfold isFactoryResetRequested at hfrr
      by_cases hz : holdRun 0 ticks = 0
      · rw [if_pos hz] at hfrr
        exact absurd hfrr (by decide)
      · rw [if_neg hz] at hfrr
        exact ⟨hz, of_decide_eq_true hfrr⟩
    rcases holdRun_unbroken ticks 0 hpos with h | h | h
    · exact absurd h hne.1
    · exact absurd h.1 hne.1
    · obtain ⟨pre, t, rest, hsplit, hval, hrest⟩ := h
      exact ⟨pre, t, rest, hsplit, hrest, hval, by rw [← hval]; exact hne.2⟩

/-- Witness for the amended C8 at concrete ticks: a press at 5 held
through 10 006 trips the factory-reset check at 10 005 with the recorded
timestamp 5, and the update rules behave as stated at concrete inputs. -/
theorem claim_C8_long_hold_witness :
    (updateResetHold true 7 3 = 0 ↔ (true : Bool) = false) ∧
    updateResetHold true 9 (updateResetHold false 8 3) = 9 ∧
    (∃ pre t rest,
      ([(5, true), (10006, true)] : List (Nat × Bool)) = pre ++ (t, true) :: rest ∧
      (∀ x ∈ rest, x.2 = true) ∧
      holdRun 0 [(5, true), (10006, true)] = t ∧
      RESET_HOLD_TIME_MS ≤ 10005 - t) :=
  ⟨claim_C8_long_hold.1 7 3 true (by decide),
   claim_C8_long_hold.2.1 8 9 3,
   claim_C8_long_hold.2.2 [(5, true), (10006, true)] 10005 (by decide) (by decide)⟩

/-- C9 (counterexample to the claim as stated): `getDuration()` also
returns 0 while the start timestamp is set, during the first second after
a start — integer division by 1000 truncates — so "returns 0 only while
the start timestamp is unset" is false. -/
theorem claim_C9_counterexample :
    getDuration (start mkController 1000 false).1 1500 = 0 ∧
    (start mkController 1000 false).1.alarmStartTime = 1000 ∧
    (start mkController 1000 false).1.alarmStartTime ≠ 0 := by
  refine ⟨by decide, by decide, by decide⟩

/-- C9 (amended): `getDuration()` returns 0 whenever the start timestamp
is unset, and otherwise returns `(now − startTimestamp) / 1000` — which is
also 0 during the first second after a start; a `stop(reason)` never
clears the timestamp (successful or not), so after a session ends
`getDuration()` keeps returning the elapsed seconds since the last
session's start even while `Idle`; only `reset()` clears it back to
unset. -/
theorem claim_C9_duration_behaviour :
    (∀ (c : Controller) (t : Nat), c.alarmStartTime = 0 → getDuration c t = 0) ∧
    (∀ (c : Controller) (t : Nat), c.alarmStartTime ≠ 0 →
        getDuration c t = (t - c.alarmStartTime) / 1000) ∧
    (∀ (c : Controller) (x : AlarmStopSource) (t : Nat) (online : Bool),
        (stop c x t online).1.alarmStartTime = c.alarmStartTime) ∧
    (∀ (c : Controller) (t : Nat), getDuration (reset c) t = 0) := by
  refine ⟨?_, ?_, ?_, ?_⟩
  · intro c t h
    simp [getDuration, h]
  · intro c t h
    simp [getDuration, h]
  · intro c x t online
    by_cases hA : isActive c = true
    · exact (stop_active_fields c x t online hA).2.2.2.2.2.1
    · rw [stop_inactive c x t online (by simpa using hA)]
  · intro c t
    rfl

/-- Witness for the amended C9: after a concrete start and stop the
timestamp survives and `getDuration` keeps counting from it. -/
theorem claim_C9_duration_behaviour_witness :
    getDuration (start mkController 2000 false).1 9500 =
      (9500 - (start mkController 2000 false).1.alarmStartTime) / 1000 ∧
    (stop (start mkController 2000 false).1 AlarmStopSource.completed 3000
        false).1.alarmStartTime = (start mkController 2000 false).1.alarmStartTime ∧
    getDuration (reset (start mkController 2000 false).1) 9500 = 0 :=
  ⟨claim_C9_duration_behaviour.2.1 (start mkController 2000 false).1 9500 (by decide),
   claim_C9_duration_behaviour.2.2.1 (start mkController 2000 false).1
      AlarmStopSource.completed 3000 false,
   claim_C9_duration_behaviour.2.2.2 (start mkController 2000 false).1 9500⟩

/-- C10: for every stop reason other than `SafetyTimeout` and
`HardwareFailure` — including `None` and `Completed` — a successful
`stop(reason)` passes through `StoppedByUser` and (with notifications
enabled and the bot online) emits the user-stop notification whose source
label is "Telegram" for the remote command, "Button" for the physical
button and "Unknown" otherwise; and no reason selects any `Stopped*`
state beyond the three variants. -/
theorem claim_C10_user_stop_path :
    (∀ (c : Controller) (x : AlarmStopSource) (t : Nat) (online : Bool),
        isActive c = true →
        x ≠ AlarmStopSource.safetyTimeout → x ≠ AlarmStopSource.hardwareError →
        c.telegramNotificationsEnabled = true → online = true →
        stopStateFor x = AlarmState.stoppedUser ∧
        Eff.enteredState AlarmState.stoppedUser ∈ (stop c x t online).2.2 ∧
        Eff.notifySent
            (Notice.alarmStopped ((t - c.alarmStartTime) / 1000) (stopSourceLabel x)) ∈
          (stop c x t online).2.2 ∧
        (stop c x t online).1.currentState = AlarmState.idle) ∧
    stopSourceLabel AlarmStopSource.telegramCommand = "Telegram" ∧
    stopSourceLabel AlarmStopSource.silenceButton = "Button" ∧
    stopSourceLabel AlarmStopSource.none = "Unknown" ∧
    stopSourceLabel AlarmStopSource.completed = "Unknown" ∧
    (∀ x : AlarmStopSource,
        stopStateFor x = AlarmState.stoppedUser ∨
        stopStateFor x = AlarmState.stoppedTimeout ∨
        stopStateFor x = AlarmState.stoppedError) := by
  refine ⟨?_, rfl, rfl, rfl, rfl, ?_⟩
  · intro c x t online hA h1 h2 hEn hOn
    have husr : stopStateFor x = AlarmState.stoppedUser := by
      cases x
      · rfl
      · rfl
      · rfl
      · exact absurd rfl h1
      · exact absurd rfl h2
      · rfl
    refine ⟨husr, ?_, ?_, ?_⟩
    · have := (stop_active_mem c x t online hA).1
      rw [husr] at this
      exact this
    · exact stop_user_notice c x t online hA h1 h2 hEn hOn
    · exact (stop_active_fields c x t online hA).2.1
  · intro x
    cases x
    · exact Or.inl rfl
    · exact Or.inl rfl
    · exact Or.inl rfl
    · exact Or.inr (Or.inl rfl)
    · exact Or.inr (Or.inr rfl)
    · exact Or.inl rfl

/-- Witness for C10: a concrete `stop(None)` and a concrete
`stop(Completed)` both pass through `StoppedByUser` with the "Unknown"
label. -/
theorem claim_C10_user_stop_path_witness :
    (Eff.enteredState AlarmState.stoppedUser ∈
      (stop (start mkController 5 true).1 AlarmStopSource.none 2000 true).2.2) ∧
    (Eff.notifySent
        (Notice.alarmStopped
          ((2000 - (start mkController 5 true).1.alarmStartTime) / 1000)
          (stopSourceLabel AlarmStopSource.none)) ∈
      (stop (start mkController 5 true).1 AlarmStopSource.none 2000 true).2.2) ∧
    stopStateFor AlarmStopSource.completed = AlarmState.stoppedUser :=
  have h := claim_C10_user_stop_path.1 (start mkController 5 true).1
    AlarmStopSource.none 2000 true (by decide) (by decide) (by decide) (by decide) rfl
  ⟨h.2.1, h.2.2.1,
   have h2 := claim_C10_user_stop_path.1 (start mkController 7 true).1
     AlarmStopSource.completed 2000 true (by decide) (by decide) (by decide) (by decide) rfl
   h2.1⟩

end WakeAssist
